import Mathlib

/-!
Shallow embedding of the projectDash synchronization and optimistic-mutation
engine (`src/projectdash/data.py`, `database.py`, `models.py`, `linear.py`)
in Lean 4, together with theorems settling the frozen claims about it.

Modelling conventions:
* Python `None`-able strings become `Option String`; Python truthiness of a
  string value (`if x:`) is `truthyStr` (empty string and `None` are falsy).
* `str.casefold()` is modelled as character-wise `Char.toLower` (the engine
  only compares ASCII status names).
* The SQLite store is a pure record of tables; `INSERT OR REPLACE` becomes
  an upsert on lists keyed by the primary key.  Store reads are modelled as
  infallible; store writes and remote calls can fail, and the failure that a
  given run encounters is supplied by an `Oracle` record, so every theorem
  quantifies over all failure injections.
* `await`ed remote calls are recorded in a `List RemoteCall` trace so that
  "no remote call is made" claims are statable.
* A raised Python exception is an `Except.error` / `Option.some` error value
  in the oracle; `datetime.now()` is the oracle's `now` fields.
-/

/-- Python truthiness of an optional string: `None` and `""` are falsy. -/
def truthyStr : Option String → Bool
  | some s => s ≠ ""
  | none => false

/-- Python `a or b` for an optional string `a` and optional default `b`. -/
def pyOr (a b : Option String) : Option String :=
  if truthyStr a then a else b

/-- Python `a or b` for an optional string `a` and a plain-string default. -/
def pyOrStr (a : Option String) (b : String) : String :=
  match a with
  | some s => if s = "" then b else s
  | none => b

/-- `str.casefold()` as used by the engine (ASCII lowercasing), computed on
the character list so the kernel can evaluate it. -/
def casefold (s : String) : String :=
  ⟨s.data.map Char.toLower⟩

/-- `str.strip()` (whitespace trimming), computed on the character list. -/
def pyStrip (s : String) : String :=
  ⟨((s.data.dropWhile Char.isWhitespace).reverse.dropWhile Char.isWhitespace).reverse⟩

/-- Helper for substring search over character lists (Python `needle in hay`). -/
def containsChars : List Char → List Char → Bool
  | [], needle => needle.isEmpty
  | c :: t, needle => needle.isPrefixOf (c :: t) || containsChars t needle

/-- Python `needle in hay` on strings. -/
def strContainsSub (hay needle : String) : Bool :=
  containsChars hay.toList needle.toList

/-- Insertion-ordered dict assignment `d[k] = v` on an association list. -/
def dictSet {α : Type} (k : String) (v : α) : List (String × α) → List (String × α)
  | [] => [(k, v)]
  | (k', v') :: t => if k' = k then (k, v) :: t else (k', v') :: dictSet k v t

/-- Dict lookup `d.get(k)` on an association list. -/
def dictGet {α : Type} (k : String) : List (String × α) → Option α
  | [] => none
  | (k', v) :: t => if k' = k then some v else dictGet k t

/-- `models.User` (`avatar_url` optional; `name` can hold SQL NULL after the
`get_issues` LEFT JOIN misses, hence `Option String`). -/
structure User where
  id : String
  name : Option String
  avatar_url : Option String := none
deriving DecidableEq

/-- `models.Project`. -/
structure Project where
  id : String
  name : String
  status : String
  issues_count : Int
  in_progress_count : Int
  blocked_count : Int
  due_date : String
  cycle : String
deriving DecidableEq

/-- `models.LinearWorkflowState`. -/
structure LinearWorkflowState where
  id : String
  name : String
  type : String
  team_id : String
  team_key : Option String := none
deriving DecidableEq

/-- `models.Issue`; `created_at` (a `datetime`) is modelled as a `Nat` clock
value supplied at construction (`default_factory=datetime.now`). -/
structure Issue where
  id : String
  title : String
  priority : String
  status : String
  assignee : Option User := none
  points : Int := 0
  project_id : Option String := none
  due_date : Option String := none
  linear_id : Option String := none
  team_id : Option String := none
  state_id : Option String := none
  description : Option String := none
  created_at : Nat
deriving DecidableEq

instance : Inhabited Issue :=
  ⟨{ id := "", title := "", priority := "", status := "", created_at := 0 }⟩

/-- A raised Python exception: either `linear.LinearApiError` (message, code,
type) or any other exception carrying its `str()`. -/
inductive PyError where
  | linearApiError (message : String) (code : Option String) (type : Option String)
  | otherError (message : String)
deriving DecidableEq

/-- Python `str(e)`: `LinearApiError.__str__` joins message/code/type with
`" | "`; any other exception prints its message. -/
def pyErrorStr : PyError → String
  | .linearApiError m c t =>
      let parts := [m] ++
        (match c with | some c => ["code=" ++ c] | none => []) ++
        (match t with | some t => ["type=" ++ t] | none => [])
      String.intercalate " | " parts
  | .otherError m => m

/-- Persisted row of the `issues` table (`database.py` schema). -/
structure IssueRow where
  id : String
  linear_id : Option String
  title : String
  priority : String
  status : String
  state_id : Option String
  team_id : Option String
  assignee_id : Option String
  points : Int
  due_date : Option String
  project_id : Option String
deriving DecidableEq

/-- Persisted row of the `sync_history` table; `id` is the AUTOINCREMENT key
and the diagnostics JSON blob is kept as the association list it encodes. -/
structure SyncHistoryRow where
  id : Nat
  created_at : String
  result : String
  summary : String
  diagnostics_json : List (String × String)
deriving DecidableEq

/-- Dict shape returned by `Database.get_sync_history`. -/
structure SyncHistoryEntry where
  id : Nat
  created_at : String
  result : String
  summary : String
  diagnostics : List (String × String)
deriving DecidableEq

/-- The SQLite store (`database.Database`), one list per table, rows kept in
insertion (rowid) order.  `next_history_id` models the AUTOINCREMENT counter
of `sync_history`. -/
structure Database where
  users : List User := []
  projects : List Project := []
  issues : List IssueRow := []
  workflow_states : List LinearWorkflowState := []
  sync_history : List SyncHistoryRow := []
  next_history_id : Nat := 1
deriving DecidableEq

/-- `INSERT OR REPLACE` of one row keyed by `key` (replaces in place, else
appends at the end, matching SQLite rowid behaviour on a fresh insert). -/
def upsertBy {α : Type} (key : α → String) (row : α) : List α → List α
  | [] => [row]
  | r :: rs => if key r = key row then row :: rs else r :: upsertBy key row rs

/-- `Database.save_users`. -/
def Database.save_users (db : Database) (users : List User) : Database :=
  { db with users := users.foldl (fun t u => upsertBy (fun x => x.id) u t) db.users }

/-- `Database.save_projects`. -/
def Database.save_projects (db : Database) (projects : List Project) : Database :=
  { db with projects := projects.foldl (fun t p => upsertBy (fun x => x.id) p t) db.projects }

/-- Row written by `Database.save_issues` for one issue: the assignee is
stored by id, and `project_id` falls back to the optional parameter via
Python `i.project_id or project_id`.  `description` and `created_at` have no
column and are not stored. -/
def issueToRow (project_id : Option String) (i : Issue) : IssueRow :=
  { id := i.id
    linear_id := i.linear_id
    title := i.title
    priority := i.priority
    status := i.status
    state_id := i.state_id
    team_id := i.team_id
    assignee_id := i.assignee.map (fun a => a.id)
    points := i.points
    due_date := i.due_date
    project_id := pyOr i.project_id project_id }

/-- `Database.save_issues`. -/
def Database.save_issues (db : Database) (issues : List Issue)
    (project_id : Option String := none) : Database :=
  let rows := issues.map (issueToRow project_id)
  { db with issues := rows.foldl (fun t r => upsertBy (fun x => x.id) r t) db.issues }

/-- `Database.save_workflow_states`: `DELETE FROM workflow_states` then
insert the given list. -/
def Database.save_workflow_states (db : Database)
    (workflow_states : List LinearWorkflowState) : Database :=
  { db with workflow_states :=
      workflow_states.foldl (fun t s => upsertBy (fun x => x.id) s t) [] }

/-- `Database.get_users`. -/
def Database.get_users (db : Database) : List User :=
  db.users

/-- `Database.get_projects`. -/
def Database.get_projects (db : Database) : List Project :=
  db.projects

/-- `Database.get_workflow_states`. -/
def Database.get_workflow_states (db : Database) : List LinearWorkflowState :=
  db.workflow_states

/-- One row of the `get_issues` LEFT JOIN with `users`: the assignee is
rebuilt from `assignee_id` plus the joined user columns (`NULL` name/avatar
when the join misses); `description` reloads as `None` and `created_at` is
re-created at load time (`now`). -/
def rowToIssue (users : List User) (now : Nat) (r : IssueRow) : Issue :=
  let assignee : Option User :=
    if truthyStr r.assignee_id then
      match r.assignee_id with
      | some aid =>
          match users.find? (fun u => u.id == aid) with
          | some u => some { id := aid, name := u.name, avatar_url := u.avatar_url }
          | none => some { id := aid, name := none, avatar_url := none }
      | none => none
    else none
  { id := r.id
    title := r.title
    priority := r.priority
    status := r.status
    assignee := assignee
    points := r.points
    due_date := r.due_date
    project_id := r.project_id
    linear_id := r.linear_id
    team_id := r.team_id
    state_id := r.state_id
    description := none
    created_at := now }

/-- `Database.get_issues` (LEFT JOIN with `users` to rebuild assignees). -/
def Database.get_issues (db : Database) (now : Nat) : List Issue :=
  db.issues.map (rowToIssue db.users now)

/-- `Database.append_sync_history`: insert one row, then delete all but the
`max_entries` rows with the largest ids (ids ascend with insertion, so the
survivors are the last `max_entries` rows). -/
def Database.append_sync_history (db : Database) (created_at result summary : String)
    (diagnostics : List (String × String)) (max_entries : Nat := 20) : Database :=
  let table := db.sync_history ++
    [{ id := db.next_history_id, created_at := created_at, result := result,
       summary := summary, diagnostics_json := diagnostics }]
  let kept := if max_entries > 0 then table.drop (table.length - max_entries) else table
  { db with sync_history := kept, next_history_id := db.next_history_id + 1 }

/-- `Database.get_sync_history`: rows ordered by id descending, limited. -/
def Database.get_sync_history (db : Database) (limit : Nat := 20) : List SyncHistoryEntry :=
  (db.sync_history.reverse.take limit).map
    (fun r => { id := r.id, created_at := r.created_at, result := r.result,
                summary := r.summary, diagnostics := r.diagnostics_json })

example : pyOr (some "") (some "x") = some "x" := by decide
example : strContainsSub "a stale write" "stale" = true := by decide
example : strContainsSub "fresh" "stale" = false := by decide

/-- Raw assignee dict from the Linear API (`{id, name, avatarUrl}`). -/
structure RawUser where
  id : String
  name : String
  avatarUrl : Option String
deriving DecidableEq

/-- Raw workflow-state dict nested in an issue (`{id, name, type}`). -/
structure RawState where
  id : String
  name : String
  type : Option String
deriving DecidableEq

/-- Raw issue dict from the Linear API, as consumed by `sync_with_linear`
and `_apply_remote_issue` (`priority` and `estimate` are numbers; nested
`project`/`team` dicts are collapsed to their `id`). -/
structure RawIssue where
  id : String
  identifier : String
  title : String
  priority : Int
  state : Option RawState
  dueDate : Option String
  projectId : Option String
  teamId : Option String
  assignee : Option RawUser
  estimate : Option Int
deriving DecidableEq

/-- Raw project dict (`{id, name, targetDate, state}`). -/
structure RawProject where
  id : String
  name : String
  targetDate : Option String
  state : Option String
deriving DecidableEq

/-- Raw per-team workflow-state dict from `get_team_workflow_states`
(`team.get("id")`, `team.get("key")`, `team.get("states", {}).get("nodes", [])`
with per-node optional fields). -/
structure RawTeamState where
  id : Option String
  name : Option String
  type : Option String
deriving DecidableEq

/-- Raw team dict. -/
structure RawTeam where
  id : Option String
  key : Option String
  states : List RawTeamState
deriving DecidableEq

/-- One remote (Linear) invocation, recorded in the call trace. -/
inductive RemoteCall where
  | getMe
  | getProjects
  | getTeamWorkflowStates
  | getIssues
  | getIssue (id : String)
  | updateIssueStatus (id : String) (state_id : String)
  | updateIssueAssignee (id : String) (assignee_id : Option String)
  | updateIssueEstimate (id : String) (estimate : Int)
deriving DecidableEq

/-- `config.AppConfig`, restricted to the fields the engine reads. -/
structure AppConfig where
  kanban_statuses : List String := ["Todo", "In Progress", "Review", "Done"]
  linear_status_mappings : List (String × String) := []
deriving DecidableEq

/-- `data.DataManager`: the process-scoped engine state. `api_key` is
`self.linear.api_key` (the credential held by the Remote Client). -/
structure DataManager where
  config : AppConfig := {}
  api_key : Option String := none
  users : List User := []
  projects : List Project := []
  issues : List Issue := []
  workflow_states_by_team : List (String × List LinearWorkflowState) := []
  db : Database := {}
  sync_in_progress : Bool := false
  last_sync_at : Option String := none
  last_sync_error : Option String := none
  last_sync_result : String := "idle"
  sync_diagnostics : List (String × String) := []
  last_sync_counts : List (String × Int) := []
  sync_history : List SyncHistoryEntry := []
deriving DecidableEq

/-- Failure-injection oracle: the outcome every external effect of one run
would have.  Remote fetches/mutations yield `Except PyError` values (an
`error` is a raised exception); store writes yield `some msg` when the write
raises with `str(e) = msg`; `env_api_key` is `os.getenv("LINEAR_API_KEY")`;
`now`/`now_str` are the ambient clock. -/
structure Oracle where
  env_api_key : Option String := none
  me_name : Except PyError String := .error (.otherError "unreachable")
  raw_projects : Except PyError (List RawProject) := .ok []
  raw_teams : Except PyError (List RawTeam) := .ok []
  raw_issues : Except PyError (List RawIssue) := .ok []
  issue_fetch : String → Except PyError (Option RawIssue) := fun _ => .ok none
  update_result : Except PyError Bool := .ok true
  save_users_error : Option String := none
  save_projects_error : Option String := none
  save_issues_error : Option String := none
  save_workflow_error : Option String := none
  reload_error : Option String := none
  append_history_error : Option String := none
  now_str : String := "t"
  now : Nat := 0

/-- `DataManager.load_from_cache`: refresh the in-memory snapshot from the
store (reads are modelled infallible; `now` is the load clock). -/
def DataManager.load_from_cache (s : DataManager) (now : Nat) : DataManager :=
  let workflow_states := s.db.get_workflow_states
  let by_team := workflow_states.foldl
    (fun acc st =>
      match dictGet st.team_id acc with
      | some l => dictSet st.team_id (l ++ [st]) acc
      | none => acc ++ [(st.team_id, [st])])
    []
  { s with
    users := s.db.get_users
    projects := s.db.get_projects
    issues := s.db.get_issues now
    workflow_states_by_team := by_team
    sync_history := s.db.get_sync_history 20 }

/-- `DataManager._sync_status_summary_core`. -/
def DataManager.sync_status_summary_core (s : DataManager) : String :=
  if s.last_sync_result = "success" then
    let users := (dictGet "users" s.last_sync_counts).getD (Int.ofNat s.users.length)
    let projects := (dictGet "projects" s.last_sync_counts).getD (Int.ofNat s.projects.length)
    let issues := (dictGet "issues" s.last_sync_counts).getD (Int.ofNat s.issues.length)
    let teams := (dictGet "teams" s.last_sync_counts).getD (Int.ofNat s.workflow_states_by_team.length)
    "success u:" ++ toString users ++ " p:" ++ toString projects ++
      " i:" ++ toString issues ++ " t:" ++ toString teams
  else if truthyStr s.last_sync_error then
    "failed: " ++ s.last_sync_error.getD ""
  else s.last_sync_result

/-- `DataManager._record_sync_history`: skipped while the result still reads
"syncing"; an exception from the append (or the refresh read) is swallowed. -/
def DataManager.record_sync_history (o : Oracle) (s : DataManager) : DataManager :=
  if s.last_sync_result = "syncing" then s
  else
    match o.append_history_error with
    | some _ => s
    | none =>
        let db := s.db.append_sync_history o.now_str s.last_sync_result
          (s.sync_status_summary_core) s.sync_diagnostics 20
        { s with db := db, sync_history := db.get_sync_history 20 }

/-- `DataManager._cache_workflow_states`. -/
def DataManager.cache_workflow_states (s : DataManager) (raw_teams : List RawTeam) :
    DataManager :=
  let by_team := raw_teams.foldl
    (fun acc team =>
      if truthyStr team.id then
        let tid := team.id.getD ""
        let states := (team.states.filter
            (fun st => truthyStr st.id && truthyStr st.name)).map
          (fun st =>
            { id := st.id.getD ""
              name := st.name.getD ""
              type := pyOrStr st.type "unstarted"
              team_id := tid
              team_key := team.key : LinearWorkflowState })
        dictSet tid states acc
      else acc)
    []
  { s with workflow_states_by_team := by_team }

/-- `DataManager._flatten_workflow_states`. -/
def DataManager.flatten_workflow_states (s : DataManager) : List LinearWorkflowState :=
  s.workflow_states_by_team.foldl (fun acc p => acc ++ p.2) []

/-- The issue built by the sync loop from one raw issue, threading the
`users_dict` of already-seen assignees (deduplicated by id). -/
def buildSyncIssue (users_dict : List (String × User)) (i : RawIssue) (now : Nat) :
    List (String × User) × Issue :=
  let step :=
    match i.assignee with
    | some a =>
        (match dictGet a.id users_dict with
         | some u => (users_dict, some u)
         | none =>
             let u : User := { id := a.id, name := some a.name, avatar_url := a.avatarUrl }
             (dictSet a.id u users_dict, some u))
    | none => (users_dict, none)
  (step.1,
   { id := i.identifier
     linear_id := some i.id
     title := i.title
     priority := toString i.priority
     status := (match i.state with | some st => st.name | none => "Todo")
     state_id := i.state.map (fun st => st.id)
     team_id := i.teamId
     assignee := step.2
     points := i.estimate.getD 0
     project_id := i.projectId
     due_date := i.dueDate
     description := none
     created_at := now })

/-- The `users_dict`/`issues` accumulation loop of `sync_with_linear`. -/
def buildSyncIssues (raw_issues : List RawIssue) (now : Nat) :
    List (String × User) × List Issue :=
  raw_issues.foldl
    (fun acc i =>
      let r := buildSyncIssue acc.1 i now
      (r.1, acc.2 ++ [r.2]))
    ([], [])

/-- The project aggregation of `sync_with_linear` (issue counts grouped by
`project_id`, in-progress/review count, "blocked" substring count). -/
def buildSyncProjects (raw_projects : List RawProject) (issues : List Issue) :
    List Project :=
  let issues_by_project : List (String × List Issue) :=
    issues.foldl
      (fun acc issue =>
        if truthyStr issue.project_id then
          let pid := issue.project_id.getD ""
          match dictGet pid acc with
          | some l => dictSet pid (l ++ [issue]) acc
          | none => acc ++ [(pid, [issue])]
        else acc)
      []
  raw_projects.map
    (fun p =>
      let project_issues := (dictGet p.id issues_by_project).getD []
      { id := p.id
        name := p.name
        status := pyOrStr p.state "Active"
        issues_count := Int.ofNat project_issues.length
        in_progress_count := Int.ofNat
          ((project_issues.filter
            (fun i => i.status == "In Progress" || i.status == "Review")).length)
        blocked_count := Int.ofNat
          ((project_issues.filter
            (fun i => strContainsSub (casefold i.status) "blocked")).length)
        due_date := pyOrStr p.targetDate "N/A"
        cycle := "Current" })

/-- Result of one pipeline or mutation run: new state plus the remote-call
trace it produced. -/
structure SyncRun where
  state : DataManager
  calls : List RemoteCall

/-- The body of `DataManager.sync_with_linear` (everything inside the `try`).
Every early `return` of the source is a branch here.  In this typed model the
raw payloads are well-shaped, so the source's outer catch-all/`raise` for
unexpected exceptions is unreachable and not represented. -/
def DataManager.sync_body (o : Oracle) (s0 : DataManager) : SyncRun :=
  let s := { s0 with
    sync_in_progress := true
    last_sync_error := none
    last_sync_result := "syncing"
    sync_diagnostics := []
    last_sync_counts := [] }
  if ¬ truthyStr o.env_api_key then
    { state := { s with
        last_sync_error := some "LINEAR_API_KEY not set"
        last_sync_result := "failed"
        sync_diagnostics := dictSet "auth" "failed: LINEAR_API_KEY not set" s.sync_diagnostics }
      calls := [] }
  else
    match o.me_name with
    | .error e =>
        { state := { s with
            last_sync_error := some ("auth failed: " ++ pyErrorStr e)
            last_sync_result := "failed"
            sync_diagnostics := dictSet "auth" ("failed: " ++ pyErrorStr e) s.sync_diagnostics }
          calls := [.getMe] }
    | .ok me_name =>
    let s := { s with sync_diagnostics := dictSet "auth" ("ok: " ++ me_name) s.sync_diagnostics }
    match o.raw_projects with
    | .error e =>
        { state := { s with
            last_sync_error := some ("projects fetch failed: " ++ pyErrorStr e)
            last_sync_result := "failed"
            sync_diagnostics := dictSet "projects" ("failed: " ++ pyErrorStr e) s.sync_diagnostics }
          calls := [.getMe, .getProjects] }
    | .ok raw_projects =>
    let s := { s with
      sync_diagnostics := dictSet "projects" ("ok: " ++ toString raw_projects.length) s.sync_diagnostics }
    match o.raw_teams with
    | .error e =>
        { state := { s with
            last_sync_error := some ("workflow states fetch failed: " ++ pyErrorStr e)
            last_sync_result := "failed"
            sync_diagnostics := dictSet "workflow_states" ("failed: " ++ pyErrorStr e) s.sync_diagnostics }
          calls := [.getMe, .getProjects, .getTeamWorkflowStates] }
    | .ok raw_teams =>
    let s := { s with
      sync_diagnostics := dictSet "workflow_states" ("ok: " ++ toString raw_teams.length ++ " teams") s.sync_diagnostics }
    match o.raw_issues with
    | .error e =>
        { state := { s with
            last_sync_error := some ("issues fetch failed: " ++ pyErrorStr e)
            last_sync_result := "failed"
            sync_diagnostics := dictSet "issues" ("failed: " ++ pyErrorStr e) s.sync_diagnostics }
          calls := [.getMe, .getProjects, .getTeamWorkflowStates, .getIssues] }
    | .ok raw_issues =>
    let calls : List RemoteCall := [.getMe, .getProjects, .getTeamWorkflowStates, .getIssues]
    let s := { s with
      sync_diagnostics := dictSet "issues" ("ok: " ++ toString raw_issues.length) s.sync_diagnostics }
    let s := s.cache_workflow_states raw_teams
    let built := buildSyncIssues raw_issues o.now
    let sync_users := (built.1.map (fun p => p.2))
    let issues := built.2
    let projects := buildSyncProjects raw_projects issues
    match o.save_users_error with
    | some e =>
        { state := { s with
            last_sync_error := some ("persist failed: " ++ e)
            last_sync_result := "failed"
            sync_diagnostics := dictSet "persist" ("failed: " ++ e) s.sync_diagnostics }
          calls := calls }
    | none =>
    let s := { s with db := s.db.save_users sync_users }
    match o.save_projects_error with
    | some e =>
        { state := { s with
            last_sync_error := some ("persist failed: " ++ e)
            last_sync_result := "failed"
            sync_diagnostics := dictSet "persist" ("failed: " ++ e) s.sync_diagnostics }
          calls := calls }
    | none =>
    let s := { s with db := s.db.save_projects projects }
    match o.save_issues_error with
    | some e =>
        { state := { s with
            last_sync_error := some ("persist failed: " ++ e)
            last_sync_result := "failed"
            sync_diagnostics := dictSet "persist" ("failed: " ++ e) s.sync_diagnostics }
          calls := calls }
    | none =>
    let s := { s with db := s.db.save_issues issues none }
    match o.save_workflow_error with
    | some e =>
        { state := { s with
            last_sync_error := some ("persist failed: " ++ e)
            last_sync_result := "failed"
            sync_diagnostics := dictSet "persist" ("failed: " ++ e) s.sync_diagnostics }
          calls := calls }
    | none =>
    let s := { s with db := s.db.save_workflow_states s.flatten_workflow_states }
    let s := { s with sync_diagnostics := dictSet "persist" "ok" s.sync_diagnostics }
    match o.reload_error with
    | some e =>
        { state := { s with
            last_sync_error := some ("reload failed: " ++ e)
            last_sync_result := "failed"
            sync_diagnostics := dictSet "reload" ("failed: " ++ e) s.sync_diagnostics }
          calls := calls }
    | none =>
    let s := s.load_from_cache o.now
    let s := { s with sync_diagnostics := dictSet "reload" "ok" s.sync_diagnostics }
    let counts : List (String × Int) :=
      [("users", Int.ofNat s.users.length), ("projects", Int.ofNat s.projects.length),
       ("issues", Int.ofNat s.issues.length), ("teams", Int.ofNat s.workflow_states_by_team.length)]
    let s := { s with last_sync_counts := counts }
    { state := { s with last_sync_at := some o.now_str, last_sync_result := "success" }
      calls := calls }

/-- `DataManager.sync_with_linear`: body, then the `finally` block (history
record, in-progress flag cleared). -/
def DataManager.sync_with_linear (o : Oracle) (s0 : DataManager) : SyncRun :=
  let run := DataManager.sync_body o s0
  let s := DataManager.record_sync_history o run.state
  { state := { s with sync_in_progress := false }, calls := run.calls }

/-- `DataManager.sync_status_summary`. -/
def DataManager.sync_status_summary (s : DataManager) : String :=
  if s.sync_in_progress then "syncing" else s.sync_status_summary_core

/-- `DataManager.get_sync_history` (`self.sync_history[:limit]`). -/
def DataManager.get_sync_history (s : DataManager) (limit : Nat := 20) :
    List SyncHistoryEntry :=
  s.sync_history.take limit

/-- `DataManager.get_issue_by_id` (first issue with the given id). -/
def DataManager.get_issue_by_id (s : DataManager) (issue_id : String) : Option Issue :=
  s.issues.find? (fun i => i.id == issue_id)

/-- Index of the issue `get_issue_by_id` aliases into `self.issues`. -/
def findIssueIdx (issues : List Issue) (issue_id : String) : Option Nat :=
  issues.findIdx? (fun i => i.id == issue_id)

/-- `DataManager._remote_issue_id` (`issue.linear_id or issue.id`). -/
def DataManager.remote_issue_id (issue : Issue) : String :=
  pyOrStr issue.linear_id issue.id

/-- `DataManager._resolve_state_id_for_status`: the Status Mapping Resolver.
Pure; returns `(workflow_state_id?, warning?)`. -/
def DataManager.resolve_state_id_for_status (s : DataManager) (issue : Issue)
    (status : String) : Option String × Option String :=
  let status_key := casefold (pyStrip status)
  let configured_mapping := dictGet status_key s.config.linear_status_mappings
  let team_states := (dictGet (issue.team_id.getD "") s.workflow_states_by_team).getD []
  if truthyStr configured_mapping then
    let cm := configured_mapping.getD ""
    let configured_key := casefold cm
    match team_states.find? (fun st => st.id == cm || casefold st.name == configured_key) with
    | some st => (some st.id, none)
    | none =>
        if team_states.isEmpty then
          (none, some ("configured mapping \x27" ++ cm ++
            "\x27 could not be validated (no team workflow states cached)"))
        else
          (none, some ("configured mapping \x27" ++ cm ++
            "\x27 not found for team workflow states"))
  else
    match team_states.find? (fun st => casefold st.name == status_key) with
    | some st => (some st.id, none)
    | none =>
        if ¬ truthyStr issue.team_id then
          (none, some ("no team id on " ++ issue.id ++ "; unable to map status \x27" ++
            status ++ "\x27 to Linear state id"))
        else if team_states.isEmpty then
          (none, some ("no workflow states cached for team " ++ issue.team_id.getD "" ++
            "; run sync to populate state mapping"))
        else
          (none, some ("no mapping for status \x27" ++ status ++ "\x27 in team " ++
            issue.team_id.getD "" ++ "; add linear_status_mappings." ++ status_key ++
            " in projectdash.config.json"))

/-- `DataManager._format_remote_error`: classify a remote error into a human
reason plus the raw message and code/type suffix. -/
def DataManager.format_remote_error : PyError → String
  | .otherError m => m
  | .linearApiError message code ty =>
      let lowered := casefold message
      let reason :=
        if strContainsSub lowered "archived" then "issue is archived"
        else if strContainsSub lowered "permission" || code == some "FORBIDDEN" ||
            code == some "UNAUTHORIZED" then "permission denied"
        else if strContainsSub lowered "state" &&
            (strContainsSub lowered "invalid" || strContainsSub lowered "not found") then
          "invalid state"
        else if strContainsSub lowered "stale" || strContainsSub lowered "conflict" then
          "stale issue data"
        else if strContainsSub lowered "not found" then "issue not found or inaccessible"
        else "Linear API error"
      let parts :=
        (match code with | some c => ["code=" ++ c] | none => []) ++
        (match ty with | some t => ["type=" ++ t] | none => [])
      let suffix_text :=
        if parts.isEmpty then "" else " (" ++ String.intercalate ", " parts ++ ")"
      reason ++ ": " ++ message ++ suffix_text

/-- `DataManager._should_reconcile_remote_failure`: conflict-class test. -/
def DataManager.should_reconcile_remote_failure : PyError → Bool
  | .otherError _ => false
  | .linearApiError message code _ =>
      if code == some "CONFLICT" || code == some "NOT_FOUND" then true
      else
        let lowered := casefold message
        strContainsSub lowered "stale" || strContainsSub lowered "conflict"

/-- Replacement step of `_apply_remote_issue`: swap the first issue whose key
or remote id matches for the freshly fetched issue, else append it. -/
def replaceOrAppendIssue (issues : List Issue) (remote_issue : Issue) : List Issue :=
  match issues.findIdx? (fun ex => ex.id == remote_issue.id ||
      (ex.linear_id.isSome && ex.linear_id == remote_issue.linear_id)) with
  | some j => issues.set j remote_issue
  | none => issues ++ [remote_issue]

/-- `DataManager._apply_remote_issue`: adopt a freshly fetched issue into the
in-memory snapshot (merging/creating its assignee user), then persist users
and the issue.  Returns the state after the in-memory changes together with
the error of the first failing save, if any (the exception then propagates to
the caller with the in-memory changes already applied, as in the source). -/
def DataManager.apply_remote_issue (o : Oracle) (s : DataManager) (raw : RawIssue) :
    DataManager × Option String :=
  let users_dict := s.users.foldl (fun d u => dictSet u.id u d) []
  let step :=
    match raw.assignee with
    | none => (s.users, (none : Option User))
    | some a =>
        (match dictGet a.id users_dict with
         | some u => (s.users, some u)
         | none =>
             let u : User := { id := a.id, name := some a.name, avatar_url := a.avatarUrl }
             (s.users ++ [u], some u))
  let remote_issue : Issue :=
    { id := raw.identifier
      linear_id := some raw.id
      title := raw.title
      priority := toString raw.priority
      status := (match raw.state with | some st => st.name | none => "Todo")
      state_id := raw.state.map (fun st => st.id)
      team_id := raw.teamId
      assignee := step.2
      points := raw.estimate.getD 0
      project_id := raw.projectId
      due_date := raw.dueDate
      description := none
      created_at := o.now }
  let s1 := { s with users := step.1, issues := replaceOrAppendIssue s.issues remote_issue }
  match o.save_users_error with
  | some m => (s1, some m)
  | none =>
      let s2 := { s1 with db := s1.db.save_users step.1 }
      match o.save_issues_error with
      | some m => (s2, some m)
      | none =>
          (({ s2 with db := s2.db.save_issues [remote_issue] remote_issue.project_id }), none)

/-- Result of `_reconcile_issue_after_remote_failure`, instrumented with the
remote-call trace and whether reconciliation work was attempted (the body was
entered past its credential guard). -/
structure ReconcileRun where
  state : DataManager
  suffix : String
  calls : List RemoteCall
  attempted : Bool

/-- `DataManager._reconcile_issue_after_remote_failure`.  Every fallible step
inside (single-issue refetch, adoption, full resync) has its exception
swallowed, so this function always returns normally: its Lean type is total
and carries no error channel.  The full-resync fallback runs the real
`sync_with_linear`. -/
def DataManager.reconcile_issue_after_remote_failure (o : Oracle) (s : DataManager)
    (issue : Issue) : ReconcileRun :=
  if ¬ truthyStr s.api_key then
    { state := s, suffix := "", calls := [], attempted := false }
  else
    let full_resync := fun (s : DataManager) (calls : List RemoteCall) =>
      let run := DataManager.sync_with_linear o s
      if run.state.last_sync_result = "success" then
        { state := run.state, suffix := " (triggered full re-sync)",
          calls := calls ++ run.calls, attempted := true : ReconcileRun }
      else
        { state := run.state, suffix := "", calls := calls ++ run.calls, attempted := true }
    if truthyStr issue.linear_id then
      let lid := issue.linear_id.getD ""
      match o.issue_fetch lid with
      | .error _ => full_resync s [.getIssue lid]
      | .ok none => full_resync s [.getIssue lid]
      | .ok (some raw) =>
          let applied := DataManager.apply_remote_issue o s raw
          match applied.2 with
          | none =>
              { state := applied.1, suffix := " (re-fetched latest issue)",
                calls := [.getIssue lid], attempted := true }
          | some _ => full_resync applied.1 [.getIssue lid]
    else full_resync s []

/-- Restore the fields of the issue object at `idx` via `restore` — the
`_restore_issue_fields` setattr loop, with the `previous_values` dict curried
into `restore`. -/
def DataManager.restore_issue_at (s : DataManager) (idx : Nat) (restore : Issue → Issue) :
    DataManager :=
  { s with issues := s.issues.set idx (restore (s.issues.getD idx default)) }

/-- `DataManager._persist_issue_with_rollback`. -/
def DataManager.persist_issue_with_rollback (o : Oracle) (s : DataManager) (idx : Nat)
    (restore : Issue → Issue) : DataManager × Bool × Option String :=
  let issue := s.issues.getD idx default
  match o.save_issues_error with
  | none => ({ s with db := s.db.save_issues [issue] issue.project_id }, true, none)
  | some m => (s.restore_issue_at idx restore, false, some m)

/-- Result of `_write_through_issue_update`, instrumented with the call
trace, the final field values of the Python issue object the coordinator
mutated (`issue_obj`; reconciliation replaces list slots with a fresh object
and never mutates this one again), and the reconcile-attempt flag. -/
structure WriteThroughRun where
  state : DataManager
  ok : Bool
  error : Option String
  issue_obj : Issue
  calls : List RemoteCall
  reconcile_attempted : Bool

/-- The `except` block of `_write_through_issue_update`: roll back the
optimistic fields, reconcile when the error is conflict-class, and build the
failure result. -/
def DataManager.write_through_handle_failure (o : Oracle) (s : DataManager) (idx : Nat)
    (restore : Issue → Issue) (remote_call : RemoteCall) (failure_label : String)
    (e : PyError) : WriteThroughRun :=
  let s1 := s.restore_issue_at idx restore
  let obj := restore (s.issues.getD idx default)
  if DataManager.should_reconcile_remote_failure e then
    let r := DataManager.reconcile_issue_after_remote_failure o s1 obj
    { state := r.state
      ok := false
      error := some (failure_label ++ ": " ++ DataManager.format_remote_error e ++ r.suffix)
      issue_obj := obj
      calls := remote_call :: r.calls
      reconcile_attempted := r.attempted }
  else
    { state := s1
      ok := false
      error := some (failure_label ++ ": " ++ DataManager.format_remote_error e)
      issue_obj := obj
      calls := [remote_call]
      reconcile_attempted := false }

/-- `DataManager._write_through_issue_update`: push the optimistic change at
`idx` remotely (outcome `o.update_result`; a `success=false` payload raises
`RuntimeError("Linear rejected update")`), roll back and classify/reconcile
on remote failure, else persist with rollback. -/
def DataManager.write_through_issue_update (o : Oracle) (s : DataManager) (idx : Nat)
    (restore : Issue → Issue) (remote_call : RemoteCall) (failure_label : String) :
    WriteThroughRun :=
  let issue := s.issues.getD idx default
  match o.update_result with
  | .error e => DataManager.write_through_handle_failure o s idx restore remote_call failure_label e
  | .ok success =>
      if ¬ success then
        DataManager.write_through_handle_failure o s idx restore remote_call failure_label
          (.otherError "Linear rejected update")
      else
        let p := DataManager.persist_issue_with_rollback o s idx restore
        match p.2.2 with
        | none =>
            { state := p.1, ok := true, error := none, issue_obj := issue,
              calls := [remote_call], reconcile_attempted := false }
        | some m =>
            { state := p.1, ok := false,
              error := some (failure_label ++ ": " ++ m),
              issue_obj := restore issue, calls := [remote_call],
              reconcile_attempted := false }

/-- Result of one mutation-coordinator operation (`(bool, message)` in the
source, plus the instrumentation channels). -/
structure MutationRun where
  state : DataManager
  ok : Bool
  message : String
  calls : List RemoteCall := []
  issue_obj : Option Issue := none
  reconcile_attempted : Bool := false

/-- The cyclic next-status selection inlined in `cycle_issue_status`:
first-occurrence index advanced cyclically, or index 0 when absent. -/
def statusCycleNext (statuses : List String) (current : String) : String :=
  let next_index :=
    if current ∈ statuses then (statuses.indexOf current + 1) % statuses.length else 0
  statuses.getD next_index ""

/-- The engine state after optimistically writing `status` into the issue
object at `idx`. -/
def DataManager.with_issue_status (s : DataManager) (idx : Nat) (status : String) :
    DataManager :=
  { s with issues := s.issues.set idx { s.issues.getD idx default with status := status } }

/-- `DataManager.cycle_issue_status`. -/
def DataManager.cycle_issue_status (o : Oracle) (s : DataManager) (issue_id : String)
    (statuses : List String) : MutationRun :=
  match findIssueIdx s.issues issue_id with
  | none => { state := s, ok := false, message := "Issue not found: " ++ issue_id }
  | some idx =>
      let issue := s.issues.getD idx default
      if statuses.isEmpty then
        { state := s, ok := false, message := "No configured statuses" }
      else
        let next_status := statusCycleNext statuses issue.status
        let previous_status := issue.status
        let previous_state_id := issue.state_id
        let s1 := s.with_issue_status idx next_status
        let issue1 := { issue with status := next_status }
        let resolved := DataManager.resolve_state_id_for_status s1 issue1 next_status
        match resolved.1 with
        | none =>
            let restored := { issue1 with status := previous_status, state_id := previous_state_id }
            let s2 := { s1 with issues := s1.issues.set idx restored }
            let message := pyOrStr resolved.2
              ("no Linear state mapping for status \x27" ++ next_status ++ "\x27")
            { state := s2, ok := false, message := "Status update failed: " ++ message,
              issue_obj := some restored }
        | some resolved_state_id =>
            let issue2 := { issue1 with state_id := some resolved_state_id }
            let s2 := { s1 with issues := s1.issues.set idx issue2 }
            let remote_call := RemoteCall.updateIssueStatus
              (DataManager.remote_issue_id issue2) (pyOrStr issue2.state_id "")
            let r := DataManager.write_through_issue_update o s2 idx
              (fun i => { i with status := previous_status, state_id := previous_state_id })
              remote_call "Status update failed"
            if ¬ r.ok then
              { state := r.state, ok := false,
                message := pyOrStr r.error "Status update failed",
                calls := r.calls, issue_obj := some r.issue_obj,
                reconcile_attempted := r.reconcile_attempted }
            else
              match resolved.2 with
              | some warning =>
                  if warning ≠ "" then
                    { state := r.state, ok := true,
                      message := issue.id ++ " moved to " ++ next_status ++
                        " (warning: " ++ warning ++ ")",
                      calls := r.calls, issue_obj := some r.issue_obj }
                  else
                    { state := r.state, ok := true,
                      message := issue.id ++ " moved to " ++ next_status,
                      calls := r.calls, issue_obj := some r.issue_obj }
              | none =>
                  { state := r.state, ok := true,
                    message := issue.id ++ " moved to " ++ next_status,
                    calls := r.calls, issue_obj := some r.issue_obj }

/-- `DataManager.cycle_issue_assignee`. -/
def DataManager.cycle_issue_assignee (o : Oracle) (s : DataManager) (issue_id : String) :
    MutationRun :=
  match findIssueIdx s.issues issue_id with
  | none => { state := s, ok := false, message := "Issue not found: " ++ issue_id }
  | some idx =>
      let issue := s.issues.getD idx default
      let cycle : List (Option User) := none :: s.users.map some
      if cycle.isEmpty then
        { state := s, ok := false, message := "No assignees available" }
      else
        let current_index := (cycle.findIdx?
          (fun a =>
            match issue.assignee, a with
            | none, none => true
            | some x, some y => x.id == y.id
            | _, _ => false)).getD 0
        let next_assignee := cycle.getD ((current_index + 1) % cycle.length) none
        let previous_assignee := issue.assignee
        let issue1 := { issue with assignee := next_assignee }
        let s1 := { s with issues := s.issues.set idx issue1 }
        let remote_call := RemoteCall.updateIssueAssignee
          (DataManager.remote_issue_id issue1) (issue1.assignee.map (fun u => u.id))
        let r := DataManager.write_through_issue_update o s1 idx
          (fun i => { i with assignee := previous_assignee })
          remote_call "Assignee update failed"
        if ¬ r.ok then
          { state := r.state, ok := false,
            message := pyOrStr r.error "Assignee update failed",
            calls := r.calls, issue_obj := some r.issue_obj,
            reconcile_attempted := r.reconcile_attempted }
        else
          let assignee_name :=
            match issue1.assignee with
            | some u => (match u.name with | some n => n | none => "None")
            | none => "Unassigned"
          { state := r.state, ok := true,
            message := issue.id ++ " assigned to " ++ assignee_name,
            calls := r.calls, issue_obj := some r.issue_obj }

/-- `DataManager.cycle_issue_points`. -/
def DataManager.cycle_issue_points (o : Oracle) (s : DataManager) (issue_id : String)
    (step : Int := 1) (max_points : Int := 13) : MutationRun :=
  match findIssueIdx s.issues issue_id with
  | none => { state := s, ok := false, message := "Issue not found: " ++ issue_id }
  | some idx =>
      let issue := s.issues.getD idx default
      let previous_points := issue.points
      let next_points := if issue.points + step > max_points then 0 else issue.points + step
      let issue1 := { issue with points := next_points }
      let s1 := { s with issues := s.issues.set idx issue1 }
      let remote_call := RemoteCall.updateIssueEstimate
        (DataManager.remote_issue_id issue1) issue1.points
      let r := DataManager.write_through_issue_update o s1 idx
        (fun i => { i with points := previous_points })
        remote_call "Estimate update failed"
      if ¬ r.ok then
        { state := r.state, ok := false,
          message := pyOrStr r.error "Estimate update failed",
          calls := r.calls, issue_obj := some r.issue_obj,
          reconcile_attempted := r.reconcile_attempted }
      else
        { state := r.state, ok := true,
          message := issue.id ++ " estimate set to " ++ toString issue1.points,
          calls := r.calls, issue_obj := some r.issue_obj }

/-- Fixture user. -/
def uBob : User := { id := "u1", name := some "Bob", avatar_url := none }

/-- Fixture workflow states for team-1. -/
def wsTodo : LinearWorkflowState :=
  { id := "state-1", name := "Todo", type := "unstarted", team_id := "team-1" }

def wsInProgress : LinearWorkflowState :=
  { id := "state-2", name := "In Progress", type := "started", team_id := "team-1" }

def wsDone : LinearWorkflowState :=
  { id := "state-3", name := "Done", type := "completed", team_id := "team-1" }

/-- Fixture issue. -/
def issueA : Issue :=
  { id := "PROJ-1", title := "T", priority := "1", status := "Todo",
    assignee := some uBob, points := 3, project_id := some "p1",
    linear_id := some "lin-1", team_id := some "team-1", state_id := some "state-1",
    created_at := 0 }

/-- Fixture engine state. -/
def smW : DataManager :=
  { api_key := some "k", users := [uBob], issues := [issueA],
    workflow_states_by_team := [("team-1", [wsTodo, wsInProgress, wsDone])] }

/-- Oracle: remote succeeds, persistence succeeds. -/
def oOk : Oracle := { update_result := .ok true }

/-- Oracle: remote raises a generic error. -/
def oRemoteFail : Oracle := { update_result := .error (.otherError "boom") }

/-- Oracle: remote returns success=false. -/
def oRejected : Oracle := { update_result := .ok false }

/-- Oracle: remote ok, local persistence raises. -/
def oPersistFail : Oracle :=
  { update_result := .ok true, save_issues_error := some "disk full" }

/-- Freshly fetched remote issue with estimate 8. -/
def rawFresh : RawIssue :=
  { id := "lin-1", identifier := "PROJ-1", title := "T", priority := 1,
    state := some { id := "state-3", name := "Done", type := some "completed" },
    dueDate := none, projectId := some "p1", teamId := some "team-1",
    assignee := none, estimate := some 8 }

/-- Oracle: conflict-class remote failure, single-issue refetch succeeds. -/
def oConflict : Oracle :=
  { update_result := .error (.linearApiError "stale data" (some "CONFLICT") none),
    issue_fetch := fun lid => if lid = "lin-1" then .ok (some rawFresh) else .ok none }

example :
    (DataManager.cycle_issue_status oOk smW "PROJ-1" ["Todo", "In Progress", "Done"]).message =
      "PROJ-1 moved to In Progress" := by decide

example :
    ((DataManager.cycle_issue_status oOk smW "PROJ-1" ["Todo", "In Progress", "Done"]).state.issues.getD 0 default).state_id =
      some "state-2" := by decide

example :
    (DataManager.cycle_issue_status oRemoteFail smW "PROJ-1" ["Todo", "In Progress", "Done"]).state.issues = [issueA] := by decide

example :
    (DataManager.cycle_issue_points oConflict smW "PROJ-1" 1 13).message =
      "Estimate update failed: stale issue data: stale data (code=CONFLICT) (re-fetched latest issue)" := by decide

example :
    ((DataManager.cycle_issue_points oConflict smW "PROJ-1" 1 13).state.get_issue_by_id "PROJ-1").map (fun i => i.points) = some 8 := by decide

example :
    (DataManager.cycle_issue_points oPersistFail smW "PROJ-1" 1 13).state.issues = [issueA] := by decide

example :
    (DataManager.cycle_issue_points oOk smW "PROJ-1" 11 13).message =
      "PROJ-1 estimate set to 0" := by decide

theorem getD_set_self {α : Type} (l : List α) (i : Nat) (v d : α) (h : i < l.length) :
    (l.set i v).getD i d = v := by
  rw [List.getD_eq_getElem?_getD, List.getElem?_set_self h]
  rfl

theorem set_getD_self {α : Type} (l : List α) (i : Nat) (d : α) :
    l.set i (l.getD i d) = l := by
  induction l generalizing i with
  | nil => simp
  | cons x xs ih =>
      cases i with
      | zero => simp
      | succ n =>
          show x :: xs.set n ((x :: xs).getD (n + 1) d) = x :: xs
          rw [List.getD_cons_succ, ih]

theorem set_set_getD {α : Type} (l : List α) (i : Nat) (a d : α) (f : α → α)
    (h : f a = l.getD i d) : (l.set i a).set i (f a) = l := by
  rw [List.set_set, h, set_getD_self]

theorem findIdx?_spec {α : Type} (p : α → Bool) (l : List α) (i : Nat) (d : α)
    (h : l.findIdx? p = some i) :
    i < l.length ∧ p (l.getD i d) = true ∧ ∀ j, j < i → p (l.getD j d) = false := by
  induction l generalizing i with
  | nil => simp [List.findIdx?] at h
  | cons x xs ih =>
      rw [List.findIdx?_cons] at h
      by_cases hx : p x = true
      · rw [if_pos hx] at h
        cases h
        refine ⟨Nat.succ_pos _, hx, ?_⟩
        intro j hj
        exact absurd hj (Nat.not_lt_zero j)
      · rw [if_neg hx, List.findIdx?_succ] at h
        match hi : xs.findIdx? p with
        | none => rw [hi] at h; simp at h
        | some i' =>
            rw [hi] at h
            simp at h
            subst h
            obtain ⟨h1, h2, h3⟩ := ih i' hi
            refine ⟨Nat.succ_lt_succ h1, by simpa using h2, ?_⟩
            intro j hj
            cases j with
            | zero => simpa using eq_false_of_ne_true hx
            | succ j' => simpa using h3 j' (Nat.lt_of_succ_lt_succ hj)

theorem find?_of_findIdx? {α : Type} (p : α → Bool) (l : List α) (i : Nat) (d : α)
    (h : l.findIdx? p = some i) : l.find? p = some (l.getD i d) := by
  induction l generalizing i with
  | nil => simp [List.findIdx?] at h
  | cons x xs ih =>
      rw [List.findIdx?_cons] at h
      by_cases hx : p x = true
      · rw [if_pos hx] at h
        cases h
        simp [List.find?_cons, hx]
      · rw [if_neg hx, List.findIdx?_succ] at h
        match hi : xs.findIdx? p with
        | none => rw [hi] at h; simp at h
        | some i' =>
            rw [hi] at h
            simp at h
            subst h
            have := ih i' hi
            simp [List.find?_cons, hx, this]

theorem strAppend_ne_empty (a b : String) (h : a ≠ "") : a ++ b ≠ "" := by
  intro hc
  apply h
  apply String.ext
  have : (a ++ b).data = [] := by rw [hc]
  rw [String.data_append] at this
  have ha : a.data = [] := (List.append_eq_nil.mp this).1
  simpa using ha

theorem pyOrStr_some_of_ne (m fb : String) (h : m ≠ "") : pyOrStr (some m) fb = m := by
  simp [pyOrStr, h]

/-- Failure of the write-through push, in the sense of the spec: the remote
mutation raises, or it reports `success=false`, or the local persistence of
the accepted update raises. -/
def writeThroughFails (o : Oracle) : Bool :=
  (match o.update_result with
   | .error _ => true
   | .ok success => !success) || o.save_issues_error.isSome

theorem write_through_eq_ok (o : Oracle) (s : DataManager) (idx : Nat)
    (restore : Issue → Issue) (rc : RemoteCall) (label : String)
    (hupd : o.update_result = Except.ok true) (hsave : o.save_issues_error = none) :
    DataManager.write_through_issue_update o s idx restore rc label =
      (let issue := s.issues.getD idx default
       { state := { s with db := s.db.save_issues [issue] issue.project_id }
         ok := true, error := none, issue_obj := issue
         calls := [rc], reconcile_attempted := false }) := by
  simp [DataManager.write_through_issue_update, DataManager.persist_issue_with_rollback,
    hupd, hsave]

theorem handle_failure_spec (o : Oracle) (s : DataManager) (idx : Nat)
    (restore : Issue → Issue) (rc : RemoteCall) (label : String) (e : PyError) :
    (DataManager.write_through_handle_failure o s idx restore rc label e).ok = false ∧
    (DataManager.write_through_handle_failure o s idx restore rc label e).issue_obj =
      restore (s.issues.getD idx default) := by
  unfold DataManager.write_through_handle_failure
  split <;> simp

theorem write_through_fail_spec (o : Oracle) (s : DataManager) (idx : Nat)
    (restore : Issue → Issue) (rc : RemoteCall) (label : String)
    (hfail : writeThroughFails o = true) :
    (DataManager.write_through_issue_update o s idx restore rc label).ok = false ∧
    (DataManager.write_through_issue_update o s idx restore rc label).issue_obj =
      restore (s.issues.getD idx default) := by
  unfold writeThroughFails at hfail
  unfold DataManager.write_through_issue_update
  rcases hu : o.update_result with e | success
  · exact handle_failure_spec o s idx restore rc label e
  · cases success with
    | false =>
        simpa using
          handle_failure_spec o s idx restore rc label (.otherError "Linear rejected update")
    | true =>
        rw [hu] at hfail
        simp at hfail
        cases hs : o.save_issues_error with
        | none => rw [hs] at hfail; simp at hfail
        | some m =>
            simp [DataManager.persist_issue_with_rollback, hs,
              DataManager.restore_issue_at]

/-- C9: for every issue and every step and maximum, `cycle_issue_points`
targets `current points + step`, wrapping to exactly 0 when that sum exceeds
the maximum (the source defaults are step 1 and maximum 13); on a successful
push the target is both applied in memory and reported in the message. -/
theorem points_cycle_targets_step_then_wrap (o : Oracle) (s : DataManager)
    (issue_id : String) (step max_points : Int) (idx : Nat)
    (hfind : findIssueIdx s.issues issue_id = some idx)
    (hupd : o.update_result = Except.ok true)
    (hsave : o.save_issues_error = none) :
    (DataManager.cycle_issue_points o s issue_id step max_points).ok = true ∧
    ((DataManager.cycle_issue_points o s issue_id step max_points).state.issues.getD idx default).points =
      (if (s.issues.getD idx default).points + step > max_points then 0
       else (s.issues.getD idx default).points + step) ∧
    (DataManager.cycle_issue_points o s issue_id step max_points).message =
      (s.issues.getD idx default).id ++ " estimate set to " ++
        toString (if (s.issues.getD idx default).points + step > max_points then 0
          else (s.issues.getD idx default).points + step) := by
  have hidx : idx < s.issues.length := (findIdx?_spec _ _ _ default hfind).1
  have hw := fun (s' : DataManager) (i : Nat) (r : Issue → Issue) (rc : RemoteCall)
    (l : String) => write_through_eq_ok o s' i r rc l hupd hsave
  unfold DataManager.cycle_issue_points findIssueIdx
  rw [show s.issues.findIdx? (fun i => i.id == issue_id) = some idx from hfind]
  simp only [hw]
  simp [getD_set_self _ _ _ _ hidx, List.getElem?_set_self hidx]

theorem indexOf_first {α : Type} [BEq α] [LawfulBEq α] (l : List α) (a d : α) (i : Nat)
    (hlen : i < l.length) (hget : l.getD i d = a)
    (hmin : ∀ j, j < i → l.getD j d ≠ a) : l.indexOf a = i := by
  induction l generalizing i with
  | nil => simp at hlen
  | cons x xs ih =>
      rw [List.indexOf_cons]
      cases i with
      | zero =>
          simp only [List.getD_cons_zero] at hget
          simp [hget]
      | succ n =>
          have hx : x ≠ a := by simpa using hmin 0 (Nat.succ_pos n)
          have hxb : (x == a) = false := by simpa using hx
          rw [hxb]
          simp only [cond_false]
          have := ih n (by simpa using hlen) (by simpa using hget)
            (fun j hj => by simpa using hmin (j + 1) (Nat.succ_lt_succ hj))
          omega

theorem statusCycleNext_not_mem (statuses : List String) (current : String)
    (h : current ∉ statuses) : statusCycleNext statuses current = statuses.getD 0 "" := by
  simp [statusCycleNext, h]

theorem statusCycleNext_mem (statuses : List String) (current : String) (i : Nat)
    (hlen : i < statuses.length) (hget : statuses.getD i "" = current)
    (hmin : ∀ j, j < i → statuses.getD j "" ≠ current) :
    statusCycleNext statuses current = statuses.getD ((i + 1) % statuses.length) "" := by
  have hmem : current ∈ statuses := by
    rw [← hget]
    have : statuses.getD i "" = statuses.get ⟨i, hlen⟩ := by
      rw [List.getD_eq_getElem?_getD]
      simp [List.getElem?_eq_getElem hlen]
    rw [this]
    exact List.get_mem statuses i hlen
  have hidx : statuses.indexOf current = i := indexOf_first statuses current "" i hlen hget hmin
  simp [statusCycleNext, hmem, hidx]

/-- C8: for every non-empty configured status tuple, `cycle_issue_status`
targets the cyclically next status when the current status occurs in the
tuple (advancing from its first occurrence), and the first configured status
when it does not; on a successful push the chosen target is the status
applied in memory. -/
theorem status_cycle_resets_or_advances (o : Oracle) (s : DataManager)
    (issue_id : String) (statuses : List String) (idx : Nat) (sid : String)
    (w : Option String)
    (hfind : findIssueIdx s.issues issue_id = some idx)
    (hne : statuses ≠ [])
    (hres : DataManager.resolve_state_id_for_status
        (s.with_issue_status idx (statusCycleNext statuses (s.issues.getD idx default).status))
        { s.issues.getD idx default with
            status := statusCycleNext statuses (s.issues.getD idx default).status }
        (statusCycleNext statuses (s.issues.getD idx default).status) = (some sid, w))
    (hupd : o.update_result = Except.ok true)
    (hsave : o.save_issues_error = none) :
    ((DataManager.cycle_issue_status o s issue_id statuses).ok = true ∧
     ((DataManager.cycle_issue_status o s issue_id statuses).state.issues.getD idx default).status =
        statusCycleNext statuses (s.issues.getD idx default).status) ∧
    ((s.issues.getD idx default).status ∉ statuses →
        statusCycleNext statuses (s.issues.getD idx default).status = statuses.getD 0 "") ∧
    (∀ i, i < statuses.length → statuses.getD i "" = (s.issues.getD idx default).status →
      (∀ j, j < i → statuses.getD j "" ≠ (s.issues.getD idx default).status) →
      statusCycleNext statuses (s.issues.getD idx default).status =
        statuses.getD ((i + 1) % statuses.length) "") := by
  refine ⟨?_, ?_, ?_⟩
  · have hidx : idx < s.issues.length := (findIdx?_spec _ _ _ default hfind).1
    have hw := fun (s' : DataManager) (i : Nat) (r : Issue → Issue) (rc : RemoteCall)
      (l : String) => write_through_eq_ok o s' i r rc l hupd hsave
    have hne' : statuses.isEmpty = false := by
      cases statuses with
      | nil => exact absurd rfl hne
      | cons a t => rfl
    unfold DataManager.cycle_issue_status findIssueIdx
    rw [show s.issues.findIdx? (fun i => i.id == issue_id) = some idx from hfind]
    simp only [hne', Bool.false_eq_true, if_false, hres, hw]
    cases w with
    | none => simp [DataManager.with_issue_status, List.getElem?_set_self, hidx]
    | some warning =>
        by_cases hwv : warning = ""
        · simp [hwv, DataManager.with_issue_status, List.getElem?_set_self, hidx]
        · simp [hwv, DataManager.with_issue_status, List.getElem?_set_self, hidx]
  · exact statusCycleNext_not_mem statuses _
  · exact fun i h1 h2 h3 => statusCycleNext_mem statuses _ i h1 h2 h3

theorem resolve_exactly_one (s : DataManager) (issue : Issue) (status : String) :
    (∃ sid, DataManager.resolve_state_id_for_status s issue status = (some sid, none)) ∨
    (∃ m, DataManager.resolve_state_id_for_status s issue status = (none, some m) ∧ m ≠ "") := by
  unfold DataManager.resolve_state_id_for_status
  dsimp only
  repeat' split
  all_goals try exact Or.inl ⟨_, rfl⟩
  all_goals refine Or.inr ⟨_, rfl, ?_⟩
  all_goals repeat apply strAppend_ne_empty
  all_goals decide

/-- C10: the Status Mapping Resolver returns exactly one of a workflow-state
id or a warning (never both non-null), and consequently a successful
`cycle_issue_status` message is always the plain confirmation — the
success-with-warning branch is unreachable. -/
theorem resolver_exclusive_and_success_plain (s : DataManager) (issue : Issue)
    (status : String) (o : Oracle) (t : DataManager) (issue_id : String)
    (statuses : List String) (idx : Nat)
    (hfind : findIssueIdx t.issues issue_id = some idx) :
    (((DataManager.resolve_state_id_for_status s issue status).1.isSome ∧
      (DataManager.resolve_state_id_for_status s issue status).2 = none) ∨
     ((DataManager.resolve_state_id_for_status s issue status).1 = none ∧
      (DataManager.resolve_state_id_for_status s issue status).2.isSome)) ∧
    ((DataManager.cycle_issue_status o t issue_id statuses).ok = true →
      (DataManager.cycle_issue_status o t issue_id statuses).message =
        (t.issues.getD idx default).id ++ " moved to " ++
          statusCycleNext statuses (t.issues.getD idx default).status) := by
  constructor
  · rcases resolve_exactly_one s issue status with ⟨sid, h⟩ | ⟨m, h, _⟩
    · left; rw [h]; exact ⟨rfl, rfl⟩
    · right; rw [h]; exact ⟨rfl, rfl⟩
  · intro hok
    unfold DataManager.cycle_issue_status findIssueIdx at hok ⊢
    rw [show t.issues.findIdx? (fun i => i.id == issue_id) = some idx from hfind] at hok ⊢
    by_cases hemp : statuses.isEmpty
    · simp [hemp] at hok
    · rw [Bool.not_eq_true] at hemp
      rcases resolve_exactly_one
          (t.with_issue_status idx (statusCycleNext statuses (t.issues.getD idx default).status))
          { t.issues.getD idx default with
              status := statusCycleNext statuses (t.issues.getD idx default).status }
          (statusCycleNext statuses (t.issues.getD idx default).status)
        with ⟨sid, hres⟩ | ⟨m, hres, _⟩
      · simp only [hemp, Bool.false_eq_true, if_false, hres] at hok ⊢
        split at hok <;>
          first
            | (rename_i hcond; rw [if_neg hcond])
            | simp at hok
      · simp only [hemp, Bool.false_eq_true, if_false] at hok
        split at hok <;> simp_all

/-- C2: when the Status Mapping Resolver cannot resolve the target status,
`cycle_issue_status` makes no remote call, leaves the engine state (and in
particular the issue's status and state_id) exactly as before the call, and
returns failure carrying the resolver's message. -/
theorem mapping_failure_no_remote_call (o : Oracle) (s : DataManager)
    (issue_id : String) (statuses : List String) (idx : Nat)
    (hfind : findIssueIdx s.issues issue_id = some idx)
    (hne : statuses ≠ [])
    (hres : (DataManager.resolve_state_id_for_status
        (s.with_issue_status idx (statusCycleNext statuses (s.issues.getD idx default).status))
        { s.issues.getD idx default with
            status := statusCycleNext statuses (s.issues.getD idx default).status }
        (statusCycleNext statuses (s.issues.getD idx default).status)).1 = none) :
    (DataManager.cycle_issue_status o s issue_id statuses).ok = false ∧
    (DataManager.cycle_issue_status o s issue_id statuses).calls = [] ∧
    (DataManager.cycle_issue_status o s issue_id statuses).state = s ∧
    ∃ m, (DataManager.resolve_state_id_for_status
        (s.with_issue_status idx (statusCycleNext statuses (s.issues.getD idx default).status))
        { s.issues.getD idx default with
            status := statusCycleNext statuses (s.issues.getD idx default).status }
        (statusCycleNext statuses (s.issues.getD idx default).status)).2 = some m ∧
      (DataManager.cycle_issue_status o s issue_id statuses).message =
        "Status update failed: " ++ m := by
  have hne' : statuses.isEmpty = false := by
    cases statuses with
    | nil => exact absurd rfl hne
    | cons a t => rfl
  rcases resolve_exactly_one
      (s.with_issue_status idx (statusCycleNext statuses (s.issues.getD idx default).status))
      { s.issues.getD idx default with
          status := statusCycleNext statuses (s.issues.getD idx default).status }
      (statusCycleNext statuses (s.issues.getD idx default).status)
    with ⟨sid, hres2⟩ | ⟨m, hres2, hm⟩
  · rw [hres2] at hres
    simp at hres
  · unfold DataManager.cycle_issue_status findIssueIdx
    rw [show s.issues.findIdx? (fun i => i.id == issue_id) = some idx from hfind]
    simp only [hne', Bool.false_eq_true, if_false, hres2]
    refine ⟨trivial, trivial, ?_, m, rfl, ?_⟩
    · have hl : (s.issues.set idx { s.issues.getD idx default with
            status := statusCycleNext statuses (s.issues.getD idx default).status }).set idx
          (s.issues.getD idx default) = s.issues := by
        rw [List.set_set]
        exact set_getD_self s.issues idx default
      exact congrArg (fun l => ({ s with issues := l } : DataManager)) hl
    · show "Status update failed: " ++
        pyOrStr (some m) ("no Linear state mapping for status \x27" ++
          statusCycleNext statuses (s.issues.getD idx default).status ++ "\x27") =
        "Status update failed: " ++ m
      rw [pyOrStr_some_of_ne _ _ hm]

theorem write_through_ok_of_fails (o : Oracle) (hfail : writeThroughFails o = true) :
    ∀ (s : DataManager) (idx : Nat) (r : Issue → Issue) (rc : RemoteCall) (l : String),
      (DataManager.write_through_issue_update o s idx r rc l).ok = false :=
  fun s idx r rc l => (write_through_fail_spec o s idx r rc l hfail).1

theorem write_through_obj_of_fails (o : Oracle) (hfail : writeThroughFails o = true) :
    ∀ (s : DataManager) (idx : Nat) (r : Issue → Issue) (rc : RemoteCall) (l : String),
      (DataManager.write_through_issue_update o s idx r rc l).issue_obj =
        r (s.issues.getD idx default) :=
  fun s idx r rc l => (write_through_fail_spec o s idx r rc l hfail).2

/-- C1: whenever the write-through push fails — the remote mutation raises,
the remote reports success=false, or the local persistence raises — each of
the three mutation operations returns failure and the mutated issue object's
fields are restored to exactly their pre-call values (the rollback happens
before reconciliation may replace the replica's list entry with remote
truth, and nothing mutates the object afterwards). -/
theorem write_through_failure_rolls_back (o : Oracle) (s : DataManager)
    (issue_id : String) (statuses : List String) (step max_points : Int) (idx : Nat)
    (hfail : writeThroughFails o = true)
    (hfind : findIssueIdx s.issues issue_id = some idx)
    (hne : statuses ≠ []) :
    ((DataManager.cycle_issue_status o s issue_id statuses).ok = false ∧
     (DataManager.cycle_issue_status o s issue_id statuses).issue_obj =
       some (s.issues.getD idx default)) ∧
    ((DataManager.cycle_issue_assignee o s issue_id).ok = false ∧
     (DataManager.cycle_issue_assignee o s issue_id).issue_obj =
       some (s.issues.getD idx default)) ∧
    ((DataManager.cycle_issue_points o s issue_id step max_points).ok = false ∧
     (DataManager.cycle_issue_points o s issue_id step max_points).issue_obj =
       some (s.issues.getD idx default)) := by
  have hidx : idx < s.issues.length := (findIdx?_spec _ _ _ default hfind).1
  have h1 := write_through_ok_of_fails o hfail
  have h2 := write_through_obj_of_fails o hfail
  have hne' : statuses.isEmpty = false := by
    cases statuses with
    | nil => exact absurd rfl hne
    | cons a t => rfl
  refine ⟨?_, ?_, ?_⟩
  · unfold DataManager.cycle_issue_status findIssueIdx
    rw [show s.issues.findIdx? (fun i => i.id == issue_id) = some idx from hfind]
    rcases resolve_exactly_one
        (s.with_issue_status idx (statusCycleNext statuses (s.issues.getD idx default).status))
        { s.issues.getD idx default with
            status := statusCycleNext statuses (s.issues.getD idx default).status }
        (statusCycleNext statuses (s.issues.getD idx default).status)
      with ⟨sid, hres2⟩ | ⟨m, hres2, hm⟩
    · simp only [hne', Bool.false_eq_true, if_false, hres2]
      simp [h1, h2, DataManager.with_issue_status, List.getElem?_set_self, hidx]
    · simp only [hne', Bool.false_eq_true, if_false, hres2]
      simp [DataManager.with_issue_status, List.getElem?_set_self, hidx]
  · unfold DataManager.cycle_issue_assignee findIssueIdx
    rw [show s.issues.findIdx? (fun i => i.id == issue_id) = some idx from hfind]
    simp [h1, h2, List.getElem?_set_self, hidx]
  · unfold DataManager.cycle_issue_points findIssueIdx
    rw [show s.issues.findIdx? (fun i => i.id == issue_id) = some idx from hfind]
    simp [h1, h2, List.getElem?_set_self, hidx]

theorem reconcile_run_spec (o : Oracle) (s : DataManager) (issue : Issue) :
    (DataManager.reconcile_issue_after_remote_failure o s issue).attempted =
      truthyStr s.api_key ∧
    ((DataManager.reconcile_issue_after_remote_failure o s issue).suffix = "" ∨
     (DataManager.reconcile_issue_after_remote_failure o s issue).suffix =
       " (re-fetched latest issue)" ∨
     (DataManager.reconcile_issue_after_remote_failure o s issue).suffix =
       " (triggered full re-sync)") := by
  unfold DataManager.reconcile_issue_after_remote_failure
  split
  · rename_i h
    have h' : truthyStr s.api_key = false := by simpa using h
    exact ⟨by rw [h'], Or.inl rfl⟩
  · rename_i h
    have ht : truthyStr s.api_key = true := by simpa using h
    dsimp only
    repeat' split
    all_goals first
      | exact ⟨by rw [ht], Or.inl rfl⟩
      | exact ⟨by rw [ht], Or.inr (Or.inl rfl)⟩
      | exact ⟨by rw [ht], Or.inr (Or.inr rfl)⟩

/-- C4: on a remote mutation failure, reconciliation work is performed if
and only if the error classifies as stale/conflict/not-found AND a
credential is present; and reconciliation never raises — the write-through
wrapper always returns normally with the original classified failure
message, at most extended by one of the two recovery suffixes. -/
theorem write_through_error_eq (o : Oracle) (s : DataManager) (idx : Nat)
    (restore : Issue → Issue) (rc : RemoteCall) (label : String) (e : PyError)
    (herr : o.update_result = Except.error e) :
    DataManager.write_through_issue_update o s idx restore rc label =
      DataManager.write_through_handle_failure o s idx restore rc label e := by
  unfold DataManager.write_through_issue_update
  rw [herr]

theorem remote_failure_reconcile_policy (o : Oracle) (s : DataManager) (idx : Nat)
    (restore : Issue → Issue) (rc : RemoteCall) (label : String) (e : PyError)
    (herr : o.update_result = Except.error e) :
    (DataManager.write_through_issue_update o s idx restore rc label).reconcile_attempted =
      (DataManager.should_reconcile_remote_failure e && truthyStr s.api_key) ∧
    (DataManager.write_through_issue_update o s idx restore rc label).ok = false ∧
    ∃ suffix, (suffix = "" ∨ suffix = " (re-fetched latest issue)" ∨
        suffix = " (triggered full re-sync)") ∧
      (DataManager.write_through_issue_update o s idx restore rc label).error =
        some (label ++ ": " ++ DataManager.format_remote_error e ++ suffix) := by
  rw [write_through_error_eq o s idx restore rc label e herr]
  unfold DataManager.write_through_handle_failure
  obtain ⟨ha, hs⟩ := reconcile_run_spec o (s.restore_issue_at idx restore)
    (restore (s.issues.getD idx default))
  cases hsr : DataManager.should_reconcile_remote_failure e with
  | true =>
      refine ⟨?_, rfl, ⟨_, hs, rfl⟩⟩
      show (DataManager.reconcile_issue_after_remote_failure o
          (s.restore_issue_at idx restore)
          (restore (s.issues.getD idx default))).attempted = (true && truthyStr s.api_key)
      rw [ha]
      simp [DataManager.restore_issue_at]
  | false =>
      refine ⟨rfl, rfl, "", Or.inl rfl, ?_⟩
      show some (label ++ ": " ++ DataManager.format_remote_error e) =
        some (label ++ ": " ++ DataManager.format_remote_error e ++ "")
      rw [String.append_empty]

/-- C6: with no credential configured, `sync()` ends with result "failed",
records the diagnostics step `auth = "failed: LINEAR_API_KEY not set"` (the
"failed: ..." form), makes no remote call, and leaves the in-memory Users,
Projects, and Issues exactly as they were. -/
theorem sync_without_credential (o : Oracle) (s : DataManager)
    (hkey : truthyStr o.env_api_key = false) :
    (DataManager.sync_with_linear o s).state.last_sync_result = "failed" ∧
    dictGet "auth" (DataManager.sync_with_linear o s).state.sync_diagnostics =
      some "failed: LINEAR_API_KEY not set" ∧
    (DataManager.sync_with_linear o s).calls = [] ∧
    (DataManager.sync_with_linear o s).state.users = s.users ∧
    (DataManager.sync_with_linear o s).state.projects = s.projects ∧
    (DataManager.sync_with_linear o s).state.issues = s.issues := by
  unfold DataManager.sync_with_linear DataManager.sync_body DataManager.record_sync_history
  rw [hkey]
  cases ha : o.append_history_error with
  | none =>
      simp [ha, dictSet, dictGet]
  | some m =>
      simp [ha, dictSet, dictGet]

theorem getD_set_ne {α : Type} (l : List α) (i j : Nat) (v d : α) (h : i ≠ j) :
    (l.set i v).getD j d = l.getD j d := by
  rw [List.getD_eq_getElem?_getD, List.getD_eq_getElem?_getD, List.getElem?_set_ne h]

theorem findIdx?_eq_some_of {α : Type} (p : α → Bool) (l : List α) (i : Nat) (d : α)
    (hi : i < l.length) (hp : p (l.getD i d) = true)
    (hmin : ∀ j, j < i → p (l.getD j d) = false) : l.findIdx? p = some i := by
  induction l generalizing i with
  | nil => simp at hi
  | cons x xs ih =>
      rw [List.findIdx?_cons]
      cases i with
      | zero =>
          simp only [List.getD_cons_zero] at hp
          rw [if_pos hp]
      | succ n =>
          have hx : p x = false := by simpa using hmin 0 (Nat.succ_pos n)
          rw [if_neg (by simp [hx]), List.findIdx?_succ]
          have := ih n (by simpa using hi) (by simpa using hp)
            (fun j hj => by simpa using hmin (j + 1) (Nat.succ_lt_succ hj))
          rw [this]
          rfl

theorem findIdx?_set_congr {α : Type} (p : α → Bool) (l : List α) (i : Nat) (v d : α)
    (h : p v = p (l.getD i d)) : (l.set i v).findIdx? p = l.findIdx? p := by
  induction l generalizing i with
  | nil => rfl
  | cons x xs ih =>
      cases i with
      | zero =>
          simp only [List.getD_cons_zero] at h
          rw [show (x :: xs).set 0 v = v :: xs from rfl]
          rw [List.findIdx?_cons, List.findIdx?_cons, h]
      | succ n =>
          simp only [List.getD_cons_succ] at h
          rw [show (x :: xs).set (n + 1) v = x :: xs.set n v from rfl]
          rw [List.findIdx?_cons, List.findIdx?_cons]
          by_cases hx : p x = true
          · rw [if_pos hx, if_pos hx]
          · rw [if_neg hx, if_neg hx, List.findIdx?_succ, List.findIdx?_succ, ih n h]

theorem apply_remote_issue_spec (o : Oracle) (t : DataManager) (raw : RawIssue)
    (hsu : o.save_users_error = none) (hsi : o.save_issues_error = none) (idx : Nat)
    (hfi : t.issues.findIdx? (fun ex => ex.id == raw.identifier ||
        (ex.linear_id.isSome && ex.linear_id == some raw.id)) = some idx) :
    (DataManager.apply_remote_issue o t raw).2 = none ∧
    ∃ R, ((DataManager.apply_remote_issue o t raw).1).issues = t.issues.set idx R ∧
      R.points = raw.estimate.getD 0 ∧ R.id = raw.identifier := by
  unfold DataManager.apply_remote_issue replaceOrAppendIssue
  rw [hsu, hsi]
  dsimp only
  rw [hfi]
  exact ⟨rfl, _, rfl, rfl, rfl⟩

theorem reconcile_refetch_spec (o : Oracle) (t : DataManager) (issue : Issue)
    (lid : String) (raw : RawIssue)
    (hkey : truthyStr t.api_key = true)
    (hlid : issue.linear_id = some lid) (hlid' : lid ≠ "")
    (hfetch : o.issue_fetch lid = Except.ok (some raw))
    (happ : (DataManager.apply_remote_issue o t raw).2 = none) :
    DataManager.reconcile_issue_after_remote_failure o t issue =
      { state := (DataManager.apply_remote_issue o t raw).1,
        suffix := " (re-fetched latest issue)",
        calls := [RemoteCall.getIssue lid], attempted := true } := by
  unfold DataManager.reconcile_issue_after_remote_failure
  rw [if_neg (by simp [hkey])]
  rw [if_pos (by simp [hlid, truthyStr, hlid'])]
  rw [show issue.linear_id.getD "" = lid from by rw [hlid]; rfl]
  dsimp only
  rw [hfetch]
  dsimp only
  rw [happ]

/-- C7: when a remote estimate update fails with a conflict-class error, the
issue has a remote id, the credential is present, and the single-issue
refetch returns a fresh issue with estimate 8, `cycle_issue_points` returns
failure, the message carries the "(re-fetched latest issue)" suffix, and the
in-memory issue afterwards has points equal to 8. -/
theorem conflict_points_reconcile_refetch (o : Oracle) (s : DataManager)
    (issue_id lid : String) (raw : RawIssue) (e : PyError)
    (step max_points : Int) (idx : Nat)
    (hfind : findIssueIdx s.issues issue_id = some idx)
    (hlid : (s.issues.getD idx default).linear_id = some lid) (hlid2 : lid ≠ "")
    (hkey : truthyStr s.api_key = true)
    (herr : o.update_result = Except.error e)
    (hconf : DataManager.should_reconcile_remote_failure e = true)
    (hfetch : o.issue_fetch lid = Except.ok (some raw))
    (hest : raw.estimate = some 8)
    (hid : raw.identifier = issue_id)
    (hnl : ∀ j, j < idx → ((s.issues.getD j default).linear_id.isSome &&
        (s.issues.getD j default).linear_id == some raw.id) = false)
    (hsu : o.save_users_error = none) (hsi : o.save_issues_error = none) :
    (DataManager.cycle_issue_points o s issue_id step max_points).ok = false ∧
    (DataManager.cycle_issue_points o s issue_id step max_points).message =
      "Estimate update failed: " ++ DataManager.format_remote_error e ++
        " (re-fetched latest issue)" ∧
    ((DataManager.cycle_issue_points o s issue_id step max_points).state.get_issue_by_id
        issue_id).map (fun i => i.points) = some 8 := by
  obtain ⟨hidx, hpidx, hpmin⟩ := findIdx?_spec _ _ _ default
    (show s.issues.findIdx? (fun i => i.id == issue_id) = some idx from hfind)
  have hwt := fun (t : DataManager) (i : Nat) (rst : Issue → Issue) (rc : RemoteCall)
    (l : String) => write_through_error_eq o t i rst rc l e herr
  -- the relocation predicate used by _apply_remote_issue
  have hfi0 : s.issues.findIdx? (fun ex => ex.id == raw.identifier ||
      (ex.linear_id.isSome && ex.linear_id == some raw.id)) = some idx := by
    apply findIdx?_eq_some_of _ _ _ default hidx
    · rw [hid, hpidx]
      rfl
    · intro j hj
      rw [hid, hpmin j hj, hnl j hj]
      rfl
  unfold DataManager.cycle_issue_points findIssueIdx
  rw [show s.issues.findIdx? (fun i => i.id == issue_id) = some idx from hfind]
  dsimp only
  simp only [hwt]
  unfold DataManager.write_through_handle_failure
  rw [if_pos hconf]
  dsimp only [DataManager.restore_issue_at]
  rw [if_pos (show (¬false = true) by simp)]
  rw [getD_set_self s.issues idx _ default hidx]
  rw [List.set_set]
  dsimp only
  have hTidx : idx < (s.issues.set idx (s.issues.getD idx default)).length := by
    simpa [List.length_set] using hidx
  have hfiT : (s.issues.set idx (s.issues.getD idx default)).findIdx?
      (fun ex => ex.id == raw.identifier ||
        (ex.linear_id.isSome && ex.linear_id == some raw.id)) = some idx := by
    rw [set_getD_self]
    exact hfi0
  obtain ⟨happN, R, hRiss, hRpts, hRid⟩ := apply_remote_issue_spec o
    ({ s with issues := s.issues.set idx (s.issues.getD idx default) }) raw hsu hsi idx hfiT
  have hrec := reconcile_refetch_spec o
    ({ s with issues := s.issues.set idx (s.issues.getD idx default) })
    (s.issues.getD idx default) lid raw hkey hlid hlid2 hfetch happN
  rw [hrec]
  refine ⟨rfl, ?_, ?_⟩
  · show pyOrStr (some ("Estimate update failed" ++ ": " ++
        DataManager.format_remote_error e ++ " (re-fetched latest issue)"))
        "Estimate update failed" = _
    rw [pyOrStr_some_of_ne _ _ (strAppend_ne_empty _ _
      (strAppend_ne_empty _ _ (by decide)))]
    rfl
  · show ((DataManager.apply_remote_issue o
        ({ s with issues := s.issues.set idx (s.issues.getD idx default) })
        raw).1.get_issue_by_id issue_id).map (fun i => i.points) = some 8
    unfold DataManager.get_issue_by_id
    rw [hRiss]
    have hfind2 : ((s.issues.set idx (s.issues.getD idx default)).set idx R).findIdx?
        (fun i => i.id == issue_id) = some idx := by
      apply findIdx?_eq_some_of _ _ _ default
      · simpa [List.length_set] using hidx
      · rw [getD_set_self _ _ _ _ hTidx, hRid, hid]
        simp
      · intro j hj
        rw [getD_set_ne _ _ _ _ _ (by omega), getD_set_ne _ _ _ _ _ (by omega)]
        exact hpmin j hj
    rw [find?_of_findIdx? _ _ _ default hfind2]
    rw [getD_set_self _ _ _ _ hTidx]
    simp [hRpts, hest]

theorem mem_of_mem_getLast? {α : Type} {l : List α} {x : α} (h : x ∈ l.getLast?) : x ∈ l := by
  obtain ⟨hne, hx⟩ := List.mem_getLast?_eq_getLast h
  rw [hx]
  exact List.getLast_mem hne

/-- Well-formedness of the persisted sync-history table: ids strictly
increase with insertion order and stay below the AUTOINCREMENT counter. -/
def HistInv (db : Database) : Prop :=
  List.Chain' (fun a b => a < b) (db.sync_history.map (fun r => r.id)) ∧
  ∀ r ∈ db.sync_history, r.id < db.next_history_id

theorem append_sync_history_length (db : Database) (c r su : String)
    (d : List (String × String)) :
    (db.append_sync_history c r su d 20).sync_history.length =
      min (db.sync_history.length + 1) 20 := by
  simp [Database.append_sync_history, List.length_drop]
  omega

theorem append_sync_history_inv (db : Database) (c r su : String)
    (d : List (String × String)) (h : HistInv db) :
    HistInv (db.append_sync_history c r su d 20) := by
  obtain ⟨hchain, hbound⟩ := h
  constructor
  · have htable : List.Chain' (fun a b => a < b)
        ((db.sync_history ++ [(⟨db.next_history_id, c, r, su, d⟩ : SyncHistoryRow)]).map
          (fun x => x.id)) := by
      rw [List.map_append, List.chain'_append]
      refine ⟨hchain, by simp, ?_⟩
      intro x hx y hy
      simp at hy
      rw [← hy]
      rw [List.getLast?_map] at hx
      simp at hx
      obtain ⟨z, hz, hzx⟩ := hx
      rw [← hzx]
      exact hbound z (mem_of_mem_getLast? (by simpa using hz))
    have hdropped : List.Chain' (fun a b => a < b)
        (((db.sync_history ++ [(⟨db.next_history_id, c, r, su, d⟩ : SyncHistoryRow)]).map
            (fun x => x.id)).drop ((db.sync_history.length + 1) - 20)) :=
      htable.sublist (List.drop_sublist _ _)
    rw [← List.map_drop] at hdropped
    simpa [Database.append_sync_history] using hdropped
  · intro x hx
    have hx' : x ∈ db.sync_history ++
        [(⟨db.next_history_id, c, r, su, d⟩ : SyncHistoryRow)] := by
      have hx2 : x ∈ (db.sync_history ++
          [(⟨db.next_history_id, c, r, su, d⟩ : SyncHistoryRow)]).drop
            ((db.sync_history.length + 1) - 20) := by
        simpa [Database.append_sync_history] using hx
      exact List.mem_of_mem_drop hx2
    rcases List.mem_append.mp hx' with hmem | hmem
    · have := hbound x hmem
      simp [Database.append_sync_history]
      omega
    · simp at hmem
      rw [hmem]
      simp [Database.append_sync_history]

/-- N sequential sync attempts at the level of the history recorder. -/
def runRecordAttempts (os : List Oracle) (s : DataManager) : DataManager :=
  os.foldl (fun st o => DataManager.record_sync_history o st) s

theorem record_sync_history_eq (o : Oracle) (st : DataManager)
    (hres : st.last_sync_result ≠ "syncing") (herr : o.append_history_error = none) :
    DataManager.record_sync_history o st =
      { st with
        db := st.db.append_sync_history o.now_str st.last_sync_result st.sync_status_summary_core st.sync_diagnostics 20,
        sync_history := (st.db.append_sync_history o.now_str st.last_sync_result st.sync_status_summary_core st.sync_diagnostics 20).get_sync_history 20 } := by
  unfold DataManager.record_sync_history
  rw [if_neg hres, herr]

theorem runRecordAttempts_spec (os : List Oracle) (s : DataManager)
    (hres : s.last_sync_result ≠ "syncing")
    (hok : ∀ o ∈ os, o.append_history_error = none)
    (hinv : HistInv s.db)
    (hcap : s.db.sync_history.length ≤ 20) :
    (runRecordAttempts os s).db.sync_history.length =
      min (s.db.sync_history.length + os.length) 20 ∧
    HistInv (runRecordAttempts os s).db ∧
    (os ≠ [] → (runRecordAttempts os s).sync_history =
      (runRecordAttempts os s).db.get_sync_history 20) := by
  induction os generalizing s with
  | nil =>
      refine ⟨?_, by simpa [runRecordAttempts] using hinv, fun h => absurd rfl h⟩
      simp [runRecordAttempts]
      omega
  | cons o os ih =>
      have ho := hok o (by simp)
      have hrec := record_sync_history_eq o s hres ho
      have hstep : runRecordAttempts (o :: os) s =
          runRecordAttempts os (DataManager.record_sync_history o s) := rfl
      have hres1 : (DataManager.record_sync_history o s).last_sync_result ≠ "syncing" := by
        rw [hrec]
        exact hres
      have hinv1 : HistInv (DataManager.record_sync_history o s).db := by
        rw [hrec]
        exact append_sync_history_inv s.db _ _ _ _ hinv
      have hlen1 : (DataManager.record_sync_history o s).db.sync_history.length =
          min (s.db.sync_history.length + 1) 20 := by
        rw [hrec]
        exact append_sync_history_length s.db _ _ _ _
      have hcap1 : (DataManager.record_sync_history o s).db.sync_history.length ≤ 20 := by
        rw [hlen1]
        omega
      have hmir1 : (DataManager.record_sync_history o s).sync_history =
          (DataManager.record_sync_history o s).db.get_sync_history 20 := by
        rw [hrec]
      obtain ⟨hl, hi, hm⟩ := ih (DataManager.record_sync_history o s) hres1
        (fun o' ho' => hok o' (by simp [ho'])) hinv1 hcap1
      refine ⟨?_, by rw [hstep]; exact hi, ?_⟩
      · rw [hstep, hl, hlen1]
        simp only [List.length_cons]
        omega
      · intro _
        cases os with
        | nil =>
            rw [hstep]
            simpa [runRecordAttempts] using hmir1
        | cons o2 os2 =>
            rw [hstep]
            exact hm (by simp)

/-- C3: starting from an empty history, after N sequential sync attempts
`get_sync_history()` returns exactly `min(N, 20)` entries ordered most
recent first (ids strictly decreasing), and a single history append never
leaves more than 20 persisted rows. -/
theorem sync_history_capacity_and_order (os : List Oracle) (s : DataManager)
    (h0 : s.db.sync_history = [])
    (hm : s.sync_history = [])
    (hres : s.last_sync_result ≠ "syncing")
    (hok : ∀ o ∈ os, o.append_history_error = none) :
    (DataManager.get_sync_history (runRecordAttempts os s) 20).length = min os.length 20 ∧
    List.Chain' (fun a b => b.id < a.id)
      (DataManager.get_sync_history (runRecordAttempts os s) 20) ∧
    (∀ (db : Database) (c r su : String) (d : List (String × String)),
      (Database.append_sync_history db c r su d 20).sync_history.length ≤ 20) := by
  have hinv : HistInv s.db := by
    constructor
    · rw [h0]; exact List.chain'_nil
    · intro r hr; rw [h0] at hr; simp at hr
  have hthird : ∀ (db : Database) (c r su : String) (d : List (String × String)),
      (Database.append_sync_history db c r su d 20).sync_history.length ≤ 20 := by
    intro db c r su d
    rw [append_sync_history_length]
    omega
  obtain ⟨hl, hi, hmir⟩ := runRecordAttempts_spec os s hres hok hinv (by rw [h0]; simp)
  cases os with
  | nil =>
      refine ⟨?_, ?_, hthird⟩
      · simp [runRecordAttempts, DataManager.get_sync_history, hm]
      · simp [runRecordAttempts, DataManager.get_sync_history, hm]
  | cons o os' =>
      rw [h0] at hl
      simp only [List.length_nil, Nat.zero_add] at hl
      have hcount : (runRecordAttempts (o :: os') s).db.sync_history.length ≤ 20 := by
        rw [hl]; omega
      have hmir2 := hmir (by simp)
      have hgetlen : (Database.get_sync_history (runRecordAttempts (o :: os') s).db 20).length =
          (runRecordAttempts (o :: os') s).db.sync_history.length := by
        simp [Database.get_sync_history, List.length_map, List.length_take,
          List.length_reverse]
        omega
      refine ⟨?_, ?_, hthird⟩
      · unfold DataManager.get_sync_history
        rw [hmir2, List.take_of_length_le (by rw [hgetlen]; exact hcount), hgetlen, hl]
      · unfold DataManager.get_sync_history
        rw [hmir2, List.take_of_length_le (by rw [hgetlen]; exact hcount)]
        unfold Database.get_sync_history
        refine (List.chain'_map _).mpr ?_
        have hrev : List.Chain' (fun a b : SyncHistoryRow => b.id < a.id)
            ((runRecordAttempts (o :: os') s).db.sync_history.reverse) := by
          rw [List.chain'_reverse]
          exact (List.chain'_map ((fun r => r.id) : SyncHistoryRow → Nat)).mp hi.1
        exact hrev.take 20

theorem upsertBy_fresh {α : Type} (key : α → String) (row : α) (t : List α)
    (h : ∀ x ∈ t, key x ≠ key row) :
    upsertBy key row t = t ++ [row] := by
  induction t with
  | nil => rfl
  | cons r rs ih =>
      have hr : key r ≠ key row := h r (by simp)
      simp only [upsertBy, if_neg hr, List.cons_append]
      rw [ih (fun x hx => h x (by simp [hx]))]

theorem foldl_upsert_fresh {α : Type} (key : α → String) (rows : List α) :
    ∀ (acc : List α), (rows.map key).Nodup →
    (∀ x ∈ acc, ∀ r ∈ rows, key x ≠ key r) →
    rows.foldl (fun t r => upsertBy key r t) acc = acc ++ rows := by
  induction rows with
  | nil => intro acc _ _; simp
  | cons r rs ih =>
      intro acc hnd hdisj
      have hstep : upsertBy key r acc = acc ++ [r] :=
        upsertBy_fresh key r acc (fun x hx => hdisj x hx r (by simp))
      have hnd' : (∀ y ∈ rs, ¬key y = key r) ∧ (rs.map key).Nodup := by
        simpa using hnd
      have hdisj' : ∀ x ∈ acc ++ [r], ∀ s ∈ rs, key x ≠ key s := by
        intro x hx s hs
        rcases List.mem_append.mp hx with hxa | hxr
        · exact hdisj x hxa s (by simp [hs])
        · simp at hxr; subst hxr
          intro he
          exact hnd'.1 s hs he.symm
      rw [List.foldl_cons, hstep, ih (acc ++ [r]) hnd'.2 hdisj']
      simp

theorem roundTripIssue (users : List User) (now : Nat) (i : Issue)
    (hproj : i.project_id ≠ some "")
    (hass : ∀ a, i.assignee = some a →
      a.id ≠ "" ∧ users.find? (fun u => u.id == a.id) = some a) :
    rowToIssue users now (issueToRow none i) =
      { i with description := none, created_at := now } := by
  have hpo : pyOr i.project_id none = i.project_id := by
    cases hp : i.project_id with
    | none => rfl
    | some p =>
        have hpne : p ≠ "" := by intro h; exact hproj (by rw [hp, h])
        simp [pyOr, truthyStr, hpne]
  cases hia : i.assignee with
  | none =>
      simp [rowToIssue, issueToRow, hia, truthyStr, hpo]
  | some a =>
      obtain ⟨ha1, ha2⟩ := hass a hia
      obtain ⟨aid, aname, aav⟩ := a
      simp [rowToIssue, issueToRow, hia, truthyStr, ha1, ha2, hpo]

/-- Persisting all four sets on a fresh store, as `sync_with_linear` does
(`save_users`, `save_projects`, `save_workflow_states`, `save_issues`). -/
def saveAll (users : List User) (projects : List Project)
    (wss : List LinearWorkflowState) (issues : List Issue) : Database :=
  Database.save_issues
    (Database.save_workflow_states
      (Database.save_projects
        (Database.save_users {} users) projects) wss) issues none

/-- Issue used to exhibit the failure of the literal round-trip claim. -/
def c5Issue : Issue :=
  { id := "PROJ-9", title := "t", priority := "High", status := "Todo",
    description := some "note", created_at := 5 }

/-- C5 counterexample: an issue saved with a non-empty `description`
reloads with `description = None` (the `issues` table has no description
column), so the reloaded set is not field-for-field equal to the saved
one even with an unchanged clock. -/
theorem save_reload_drops_description :
    Database.get_issues (Database.save_issues {} [c5Issue] none) 5 ≠ [c5Issue] := by
  decide

/-- C5 (corrected): persisting Users, Projects, WorkflowStates and Issues
on a fresh store and reloading yields the Users, Projects and
WorkflowStates field-for-field, provided ids are distinct within each set;
the reloaded Issues agree with the saved ones on every *persisted* field
(given each assignee has a non-empty id and reloads to an equal user
record, and no issue carries the falsy project id `""`), but
`description` always reloads as `None` and `created_at` is re-created at
load time — so the literal field-for-field claim fails for Issues. -/
theorem save_reload_round_trip (users : List User) (projects : List Project)
    (wss : List LinearWorkflowState) (issues : List Issue) (now : Nat)
    (hu : (users.map (fun u => u.id)).Nodup)
    (hp : (projects.map (fun p => p.id)).Nodup)
    (hw : (wss.map (fun w => w.id)).Nodup)
    (hnd : (issues.map (fun i => i.id)).Nodup)
    (hproj : ∀ i ∈ issues, i.project_id ≠ some "")
    (hass : ∀ i ∈ issues, ∀ a, i.assignee = some a →
      a.id ≠ "" ∧ users.find? (fun u => u.id == a.id) = some a) :
    Database.get_users (saveAll users projects wss issues) = users ∧
    Database.get_projects (saveAll users projects wss issues) = projects ∧
    Database.get_workflow_states (saveAll users projects wss issues) = wss ∧
    Database.get_issues (saveAll users projects wss issues) now =
      issues.map (fun i => { i with description := none, created_at := now }) := by
  have hfu : users.foldl (fun t u => upsertBy (fun x => x.id) u t) [] = users := by
    simpa using foldl_upsert_fresh (fun x : User => x.id) users [] hu (by simp)
  have hfp : projects.foldl (fun t p => upsertBy (fun x => x.id) p t) [] = projects := by
    simpa using foldl_upsert_fresh (fun x : Project => x.id) projects [] hp (by simp)
  have hfw : wss.foldl (fun t s => upsertBy (fun x => x.id) s t) [] = wss := by
    simpa using foldl_upsert_fresh (fun x : LinearWorkflowState => x.id) wss [] hw (by simp)
  have hnd2 : ((issues.map (issueToRow none)).map (fun r => r.id)).Nodup := by
    rw [List.map_map]
    exact hnd
  have hfi : (issues.map (issueToRow none)).foldl
      (fun t r => upsertBy (fun x => x.id) r t) [] = issues.map (issueToRow none) := by
    simpa using foldl_upsert_fresh (fun x : IssueRow => x.id)
      (issues.map (issueToRow none)) [] hnd2 (by simp)
  refine ⟨?_, ?_, ?_, ?_⟩
  · simp [saveAll, Database.save_users, Database.save_projects,
      Database.save_workflow_states, Database.save_issues, Database.get_users, hfu]
  · simp [saveAll, Database.save_users, Database.save_projects,
      Database.save_workflow_states, Database.save_issues, Database.get_projects, hfp]
  · simp [saveAll, Database.save_users, Database.save_projects,
      Database.save_workflow_states, Database.save_issues,
      Database.get_workflow_states, hfw]
  · have hget : Database.get_issues (saveAll users projects wss issues) now =
        (issues.map (issueToRow none)).map (rowToIssue users now) := by
      simp [saveAll, Database.save_users, Database.save_projects,
        Database.save_workflow_states, Database.save_issues, Database.get_issues,
        hfi, hfu]
    rw [hget, List.map_map]
    refine List.map_congr_left ?_
    intro i hi
    exact roundTripIssue users now i (hproj i hi) (hass i hi)

/-- Witness instantiating the C9 theorem on a concrete run. -/
theorem points_cycle_targets_step_then_wrap_witness :
    (findIssueIdx smW.issues "PROJ-1" = some 0 ∧
     oOk.update_result = Except.ok true ∧
     oOk.save_issues_error = none) ∧
    ((DataManager.cycle_issue_points oOk smW "PROJ-1" 1 13).ok = true ∧
     ((DataManager.cycle_issue_points oOk smW "PROJ-1" 1 13).state.issues.getD 0 default).points =
       (if (smW.issues.getD 0 default).points + 1 > 13 then 0
        else (smW.issues.getD 0 default).points + 1) ∧
     (DataManager.cycle_issue_points oOk smW "PROJ-1" 1 13).message =
       (smW.issues.getD 0 default).id ++ " estimate set to " ++
         toString (if (smW.issues.getD 0 default).points + 1 > 13 then 0
           else (smW.issues.getD 0 default).points + 1)) :=
  ⟨⟨by decide, rfl, rfl⟩,
   points_cycle_targets_step_then_wrap oOk smW "PROJ-1" 1 13 0 (by decide) rfl rfl⟩

/-- Witness instantiating the C8 theorem on a concrete run. -/
theorem status_cycle_resets_or_advances_witness :
    (findIssueIdx smW.issues "PROJ-1" = some 0 ∧
     (["Todo", "In Progress", "Done"] : List String) ≠ [] ∧
     DataManager.resolve_state_id_for_status
       (smW.with_issue_status 0
         (statusCycleNext ["Todo", "In Progress", "Done"] (smW.issues.getD 0 default).status))
       { smW.issues.getD 0 default with
           status := statusCycleNext ["Todo", "In Progress", "Done"] (smW.issues.getD 0 default).status }
       (statusCycleNext ["Todo", "In Progress", "Done"] (smW.issues.getD 0 default).status) =
         (some "state-2", none) ∧
     oOk.update_result = Except.ok true ∧
     oOk.save_issues_error = none) ∧
    (((DataManager.cycle_issue_status oOk smW "PROJ-1" ["Todo", "In Progress", "Done"]).ok = true ∧
      ((DataManager.cycle_issue_status oOk smW "PROJ-1" ["Todo", "In Progress", "Done"]).state.issues.getD 0 default).status =
        statusCycleNext ["Todo", "In Progress", "Done"] (smW.issues.getD 0 default).status) ∧
     ((smW.issues.getD 0 default).status ∉ ["Todo", "In Progress", "Done"] →
       statusCycleNext ["Todo", "In Progress", "Done"] (smW.issues.getD 0 default).status =
         (["Todo", "In Progress", "Done"] : List String).getD 0 "") ∧
     (∀ i, i < (["Todo", "In Progress", "Done"] : List String).length →
       (["Todo", "In Progress", "Done"] : List String).getD i "" = (smW.issues.getD 0 default).status →
       (∀ j, j < i → (["Todo", "In Progress", "Done"] : List String).getD j "" ≠ (smW.issues.getD 0 default).status) →
       statusCycleNext ["Todo", "In Progress", "Done"] (smW.issues.getD 0 default).status =
         (["Todo", "In Progress", "Done"] : List String).getD
           ((i + 1) % (["Todo", "In Progress", "Done"] : List String).length) "")) :=
  ⟨⟨by decide, by decide, by decide, rfl, rfl⟩,
   status_cycle_resets_or_advances oOk smW "PROJ-1" ["Todo", "In Progress", "Done"] 0
     "state-2" none (by decide) (by decide) (by decide) rfl rfl⟩

/-- Witness instantiating the C10 theorem on a concrete run. -/
theorem resolver_exclusive_and_success_plain_witness :
    findIssueIdx smW.issues "PROJ-1" = some 0 ∧
    ((((DataManager.resolve_state_id_for_status smW issueA "In Progress").1.isSome ∧
       (DataManager.resolve_state_id_for_status smW issueA "In Progress").2 = none) ∨
      ((DataManager.resolve_state_id_for_status smW issueA "In Progress").1 = none ∧
       (DataManager.resolve_state_id_for_status smW issueA "In Progress").2.isSome)) ∧
     ((DataManager.cycle_issue_status oOk smW "PROJ-1" ["Todo", "In Progress", "Done"]).ok = true →
       (DataManager.cycle_issue_status oOk smW "PROJ-1" ["Todo", "In Progress", "Done"]).message =
         (smW.issues.getD 0 default).id ++ " moved to " ++
           statusCycleNext ["Todo", "In Progress", "Done"] (smW.issues.getD 0 default).status)) :=
  ⟨by decide,
   resolver_exclusive_and_success_plain smW issueA "In Progress" oOk smW "PROJ-1"
     ["Todo", "In Progress", "Done"] 0 (by decide)⟩

/-- Witness instantiating the C2 theorem on a concrete run (the target
status "Blocked" has no workflow-state mapping). -/
theorem mapping_failure_no_remote_call_witness :
    (findIssueIdx smW.issues "PROJ-1" = some 0 ∧
     (["Blocked"] : List String) ≠ [] ∧
     (DataManager.resolve_state_id_for_status
       (smW.with_issue_status 0 (statusCycleNext ["Blocked"] (smW.issues.getD 0 default).status))
       { smW.issues.getD 0 default with
           status := statusCycleNext ["Blocked"] (smW.issues.getD 0 default).status }
       (statusCycleNext ["Blocked"] (smW.issues.getD 0 default).status)).1 = none) ∧
    ((DataManager.cycle_issue_status oOk smW "PROJ-1" ["Blocked"]).ok = false ∧
     (DataManager.cycle_issue_status oOk smW "PROJ-1" ["Blocked"]).calls = [] ∧
     (DataManager.cycle_issue_status oOk smW "PROJ-1" ["Blocked"]).state = smW ∧
     ∃ m, (DataManager.resolve_state_id_for_status
       (smW.with_issue_status 0 (statusCycleNext ["Blocked"] (smW.issues.getD 0 default).status))
       { smW.issues.getD 0 default with
           status := statusCycleNext ["Blocked"] (smW.issues.getD 0 default).status }
       (statusCycleNext ["Blocked"] (smW.issues.getD 0 default).status)).2 = some m ∧
       (DataManager.cycle_issue_status oOk smW "PROJ-1" ["Blocked"]).message =
         "Status update failed: " ++ m) :=
  ⟨⟨by decide, by decide, by decide⟩,
   mapping_failure_no_remote_call oOk smW "PROJ-1" ["Blocked"] 0
     (by decide) (by decide) (by decide)⟩

/-- Witness instantiating the C1 theorem on a concrete run (the remote
mutation raises). -/
theorem write_through_failure_rolls_back_witness :
    (writeThroughFails oRemoteFail = true ∧
     findIssueIdx smW.issues "PROJ-1" = some 0 ∧
     (["Todo", "In Progress", "Done"] : List String) ≠ []) ∧
    (((DataManager.cycle_issue_status oRemoteFail smW "PROJ-1" ["Todo", "In Progress", "Done"]).ok = false ∧
      (DataManager.cycle_issue_status oRemoteFail smW "PROJ-1" ["Todo", "In Progress", "Done"]).issue_obj =
        some (smW.issues.getD 0 default)) ∧
     ((DataManager.cycle_issue_assignee oRemoteFail smW "PROJ-1").ok = false ∧
      (DataManager.cycle_issue_assignee oRemoteFail smW "PROJ-1").issue_obj =
        some (smW.issues.getD 0 default)) ∧
     ((DataManager.cycle_issue_points oRemoteFail smW "PROJ-1" 1 13).ok = false ∧
      (DataManager.cycle_issue_points oRemoteFail smW "PROJ-1" 1 13).issue_obj =
        some (smW.issues.getD 0 default))) :=
  ⟨⟨by decide, by decide, by decide⟩,
   write_through_failure_rolls_back oRemoteFail smW "PROJ-1" ["Todo", "In Progress", "Done"]
     1 13 0 (by decide) (by decide) (by decide)⟩

/-- Witness instantiating the C4 theorem on a concrete run (conflict-class
remote failure with a credential present). -/
theorem remote_failure_reconcile_policy_witness :
    oConflict.update_result =
      Except.error (PyError.linearApiError "stale data" (some "CONFLICT") none) ∧
    ((DataManager.write_through_issue_update oConflict smW 0 id
        (RemoteCall.updateIssueEstimate "lin-1" 4) "Estimate update failed").reconcile_attempted =
      (DataManager.should_reconcile_remote_failure
        (PyError.linearApiError "stale data" (some "CONFLICT") none) && truthyStr smW.api_key) ∧
     (DataManager.write_through_issue_update oConflict smW 0 id
        (RemoteCall.updateIssueEstimate "lin-1" 4) "Estimate update failed").ok = false ∧
     ∃ suffix, (suffix = "" ∨ suffix = " (re-fetched latest issue)" ∨
         suffix = " (triggered full re-sync)") ∧
       (DataManager.write_through_issue_update oConflict smW 0 id
          (RemoteCall.updateIssueEstimate "lin-1" 4) "Estimate update failed").error =
         some ("Estimate update failed" ++ ": " ++
           DataManager.format_remote_error
             (PyError.linearApiError "stale data" (some "CONFLICT") none) ++ suffix)) :=
  ⟨rfl,
   remote_failure_reconcile_policy oConflict smW 0 id
     (RemoteCall.updateIssueEstimate "lin-1" 4) "Estimate update failed"
     (PyError.linearApiError "stale data" (some "CONFLICT") none) rfl⟩

/-- Witness instantiating the C6 theorem on a concrete run. -/
theorem sync_without_credential_witness :
    truthyStr oOk.env_api_key = false ∧
    ((DataManager.sync_with_linear oOk smW).state.last_sync_result = "failed" ∧
     dictGet "auth" (DataManager.sync_with_linear oOk smW).state.sync_diagnostics =
       some "failed: LINEAR_API_KEY not set" ∧
     (DataManager.sync_with_linear oOk smW).calls = [] ∧
     (DataManager.sync_with_linear oOk smW).state.users = smW.users ∧
     (DataManager.sync_with_linear oOk smW).state.projects = smW.projects ∧
     (DataManager.sync_with_linear oOk smW).state.issues = smW.issues) :=
  ⟨by decide, sync_without_credential oOk smW (by decide)⟩

/-- Witness instantiating the C7 theorem on a concrete run. -/
theorem conflict_points_reconcile_refetch_witness :
    (findIssueIdx smW.issues "PROJ-1" = some 0 ∧
     (smW.issues.getD 0 default).linear_id = some "lin-1" ∧
     ("lin-1" : String) ≠ "" ∧
     truthyStr smW.api_key = true ∧
     oConflict.update_result =
       Except.error (PyError.linearApiError "stale data" (some "CONFLICT") none) ∧
     DataManager.should_reconcile_remote_failure
       (PyError.linearApiError "stale data" (some "CONFLICT") none) = true ∧
     oConflict.issue_fetch "lin-1" = Except.ok (some rawFresh) ∧
     rawFresh.estimate = some 8 ∧
     rawFresh.identifier = "PROJ-1" ∧
     (∀ j, j < 0 → ((smW.issues.getD j default).linear_id.isSome &&
         (smW.issues.getD j default).linear_id == some rawFresh.id) = false) ∧
     oConflict.save_users_error = none ∧
     oConflict.save_issues_error = none) ∧
    ((DataManager.cycle_issue_points oConflict smW "PROJ-1" 1 13).ok = false ∧
     (DataManager.cycle_issue_points oConflict smW "PROJ-1" 1 13).message =
       "Estimate update failed: " ++
         DataManager.format_remote_error
           (PyError.linearApiError "stale data" (some "CONFLICT") none) ++
         " (re-fetched latest issue)" ∧
     ((DataManager.cycle_issue_points oConflict smW "PROJ-1" 1 13).state.get_issue_by_id
         "PROJ-1").map (fun i => i.points) = some 8) :=
  ⟨⟨by decide, by decide, by decide, by decide, rfl, by decide, rfl, rfl, rfl,
    fun j hj => absurd hj (Nat.not_lt_zero j), rfl, rfl⟩,
   conflict_points_reconcile_refetch oConflict smW "PROJ-1" "lin-1" rawFresh
     (PyError.linearApiError "stale data" (some "CONFLICT") none) 1 13 0
     (by decide) (by decide) (by decide) (by decide) rfl (by decide) rfl rfl rfl
     (fun j hj => absurd hj (Nat.not_lt_zero j)) rfl rfl⟩

/-- Witness instantiating the C3 theorem on a concrete run of two sync
attempts from an empty history. -/
theorem sync_history_capacity_and_order_witness :
    (smW.db.sync_history = [] ∧
     smW.sync_history = [] ∧
     smW.last_sync_result ≠ "syncing" ∧
     (∀ o ∈ [oOk, oOk], o.append_history_error = none)) ∧
    ((DataManager.get_sync_history (runRecordAttempts [oOk, oOk] smW) 20).length =
       min ([oOk, oOk] : List Oracle).length 20 ∧
     List.Chain' (fun a b => b.id < a.id)
       (DataManager.get_sync_history (runRecordAttempts [oOk, oOk] smW) 20) ∧
     (∀ (db : Database) (c r su : String) (d : List (String × String)),
       (Database.append_sync_history db c r su d 20).sync_history.length ≤ 20)) :=
  ⟨⟨rfl, rfl, by decide, by decide⟩,
   sync_history_capacity_and_order [oOk, oOk] smW rfl rfl (by decide) (by decide)⟩

/-- Witness instantiating the corrected C5 theorem on a concrete data set. -/
theorem save_reload_round_trip_witness :
    (((([uBob] : List User).map (fun u => u.id)).Nodup ∧
      (([] : List Project).map (fun p => p.id)).Nodup ∧
      (([wsTodo] : List LinearWorkflowState).map (fun w => w.id)).Nodup ∧
      (([issueA] : List Issue).map (fun i => i.id)).Nodup ∧
      (∀ i ∈ [issueA], i.project_id ≠ some "") ∧
      (∀ i ∈ [issueA], ∀ a, i.assignee = some a →
        a.id ≠ "" ∧ ([uBob] : List User).find? (fun u => u.id == a.id) = some a)) ∧
     (Database.get_users (saveAll [uBob] [] [wsTodo] [issueA]) = [uBob] ∧
      Database.get_projects (saveAll [uBob] [] [wsTodo] [issueA]) = [] ∧
      Database.get_workflow_states (saveAll [uBob] [] [wsTodo] [issueA]) = [wsTodo] ∧
      Database.get_issues (saveAll [uBob] [] [wsTodo] [issueA]) 7 =
        ([issueA] : List Issue).map (fun i => { i with description := none, created_at := 7 }))) := by
  have hass : ∀ i ∈ [issueA], ∀ a, i.assignee = some a →
      a.id ≠ "" ∧ ([uBob] : List User).find? (fun u => u.id == a.id) = some a := by
    intro i hi a ha
    rw [List.mem_singleton] at hi
    subst hi
    have h2 : some uBob = some a := ha
    injection h2 with h3
    subst h3
    exact ⟨by decide, by decide⟩
  exact ⟨⟨by decide, by decide, by decide, by decide, by decide, hass⟩,
    save_reload_round_trip [uBob] [] [wsTodo] [issueA] 7
      (by decide) (by decide) (by decide) (by decide) (by decide) hass⟩
